import Mathlib

/-!
# wget2 / libwget: logger back ends (`logger.c`) and memory helpers (`mem.c`)

A shallow embedding of `src/libwget/logger.c` and `src/libwget/mem.c`.

* C pointers that may be `NULL` are `Option` values (`none` is `NULL`).
* Functions that write through a pointer return the updated object.
* The effects of the logger on its surroundings (the callback, `stdio`
  streams, files, `errno`) are threaded through an explicit `World`.
* A call through a null pointer is undefined behaviour in C; the embedding
  returns `none` for it.
-/

namespace Wget2

/-! ## Data model -/

/-- A C `char`. -/
abbrev Byte := Char

/-- The terminating NUL character. -/
def NUL : Byte := Char.ofNat 0

/-- A non-null `wget_logger_func_t`, identified by the function it points to. -/
abbrev Func := Nat

/-- A non-null `FILE *`. `user id` is a stream the caller opened and handed to
the logger; `opened path` is the stream `fopen (path, "a")` returns, which
inside `logger.c` only lives until the matching `fclose`. -/
inductive FILE where
  | user (id : Nat)
  | opened (path : String)
deriving DecidableEq, Repr

/-- One variadic argument of a `printf`-style call. -/
inductive Arg where
  | int (i : Int)
  | str (s : String)
deriving DecidableEq, Repr

/-- The three functions `logger.c` stores in the `vprintf` member. -/
inductive VprintfFn where
  | func
  | file
  | fname
deriving DecidableEq, Repr

/-- The three functions `logger.c` stores in the `write` member. -/
inductive WriteFn where
  | func
  | file
  | fname
deriving DecidableEq, Repr

/-- The logger object, `struct wget_logger_st`. The declaration is in
`logger.h`; the members are the ones `logger.c` reads and assigns:
the callback, the stream, the file name and the two dispatch entries. -/
structure wget_logger_t where
  func : Option Func
  fp : Option FILE
  fname : Option String
  vprintf : Option VprintfFn
  write : Option WriteFn
deriving DecidableEq, Repr

/-- The empty logger: every member is null (a zero-initialised object). -/
def emptyLogger : wget_logger_t :=
  { func := none, fp := none, fname := none, vprintf := none, write := none }

/-! ## Setters, getters and the activity test (`logger.c`, lines 105-150) -/

/-- Embedding of `wget_logger_set_func`. -/
def wget_logger_set_func (logger : Option wget_logger_t) (func : Option Func) :
    Option wget_logger_t :=
  match logger with
  | some l =>
    some { l with
      func := func
      vprintf := if func.isSome then some VprintfFn.func else none
      write := if func.isSome then some WriteFn.func else none }
  | none => none

/-- Embedding of `wget_logger_get_func`. -/
def wget_logger_get_func (logger : Option wget_logger_t) : Option Func :=
  match logger with
  | some l => l.func
  | none => none

/-- Embedding of `wget_logger_set_stream`. -/
def wget_logger_set_stream (logger : Option wget_logger_t) (fp : Option FILE) :
    Option wget_logger_t :=
  match logger with
  | some l =>
    some { l with
      fp := fp
      vprintf := if fp.isSome then some VprintfFn.file else none
      write := if fp.isSome then some WriteFn.file else none }
  | none => none

/-- Embedding of `wget_logger_get_stream`. -/
def wget_logger_get_stream (logger : Option wget_logger_t) : Option FILE :=
  match logger with
  | some l => l.fp
  | none => none

/-- Embedding of `wget_logger_set_file`. The test `fname ? ... : NULL` is a
null-pointer test: an empty string is a non-null pointer. -/
def wget_logger_set_file (logger : Option wget_logger_t) (fname : Option String) :
    Option wget_logger_t :=
  match logger with
  | some l =>
    some { l with
      fname := fname
      vprintf := if fname.isSome then some VprintfFn.fname else none
      write := if fname.isSome then some WriteFn.fname else none }
  | none => none

/-- Embedding of `wget_logger_get_file`. -/
def wget_logger_get_file (logger : Option wget_logger_t) : Option String :=
  match logger with
  | some l => l.fname
  | none => none

/-- Embedding of `wget_logger_is_active`: `!!logger->vprintf`. The function
dereferences `logger` without a null test, so a null logger gives `none`. -/
def wget_logger_is_active (logger : Option wget_logger_t) : Option Bool :=
  match logger with
  | some l => some l.vprintf.isSome
  | none => none

/-- One call of a setter, with its argument. -/
inductive SetterCall where
  | set_func (func : Option Func)
  | set_stream (fp : Option FILE)
  | set_file (fname : Option String)
deriving DecidableEq, Repr

/-- Run one setter call on a logger. -/
def SetterCall.apply (c : SetterCall) (logger : Option wget_logger_t) :
    Option wget_logger_t :=
  match c with
  | .set_func func => wget_logger_set_func logger func
  | .set_stream fp => wget_logger_set_stream logger fp
  | .set_file fname => wget_logger_set_file logger fname

/-- Whether the argument of a setter call is a non-null pointer. -/
def SetterCall.nonNull : SetterCall → Bool
  | .set_func func => func.isSome
  | .set_stream fp => fp.isSome
  | .set_file fname => fname.isSome

/-- Run a sequence of setter calls, first call first. -/
def applySetters (cs : List SetterCall) (logger : Option wget_logger_t) :
    Option wget_logger_t :=
  cs.foldl (fun l c => c.apply l) logger

/-! ## The surroundings of the logger

`logger.c` acts on the outside through the user callback, `fwrite`, `fopen`,
`fclose`, the formatter and `errno`. Their effects are recorded in a `World`;
what the surroundings decide (the rendering of a format, the value an
external call leaves in `errno`) is supplied by an `Env`. -/

/-- The external calls made by `logger.c`. -/
inductive ExtCall where
  | format
  | callback
  | fwrite
  | fopen
  | fopenFailed
  | fclose
  | release
deriving DecidableEq, Repr

/-- What the surroundings decide. `render fmt args` is the byte sequence a
`printf`-style format produces; `errnoAfter c e` is the value `errno` holds
after the external call `c` when it held `e` before it (any function: the
call may keep `errno` or store anything in it). -/
structure Env where
  render : String → List Arg → List Byte
  errnoAfter : ExtCall → Int → Int

/-- The observable state around the logger.
* `errno`: the C error-code register.
* `calls`: the invocations of user callbacks so far, oldest first, each with
  the callback, the buffer and the length it was given.
* `streams id`: the bytes written so far to the caller stream `id`.
* `files path`: `none` when `path` cannot be opened for append, else the
  contents of the file (`[]` for a file that `fopen` would create).
* `openStreams`: the streams obtained from `fopen` and not yet closed.
Writes to a stream succeed in full (the logger ignores the result of
`fwrite`), and a file shows the bytes written through a stream opened on it. -/
structure World where
  errno : Int
  calls : List (Func × List Byte × Nat)
  streams : Nat → List Byte
  files : String → Option (List Byte)
  openStreams : List FILE

/-- The bytes held by the sink behind a stream: for a caller stream all that
was written to it, for a stream on a file the contents of that file. -/
def World.sink (w : World) : FILE → Option (List Byte)
  | .user id => some (w.streams id)
  | .opened path => w.files path

/-- The call `func (buf, len)` of a user callback. -/
def callFunc (env : Env) (func : Func) (buf : List Byte) (len : Nat) (w : World) : World :=
  { w with
    calls := w.calls ++ [(func, buf, len)]
    errno := env.errnoAfter ExtCall.callback w.errno }

/-- The libc call `fwrite (buf, 1, len, fp)`: the first `len` bytes of `buf`
go to the sink behind `fp`. -/
def fwrite (env : Env) (buf : List Byte) (len : Nat) (fp : FILE) (w : World) : World :=
  match fp with
  | .user id =>
    { w with
      streams := Function.update w.streams id (w.streams id ++ buf.take len)
      errno := env.errnoAfter ExtCall.fwrite w.errno }
  | .opened path =>
    { w with
      files := Function.update w.files path ((w.files path).map (· ++ buf.take len))
      errno := env.errnoAfter ExtCall.fwrite w.errno }

/-- The libc call `fopen (path, "a")`. On failure the result is `NULL` and
`errno` receives the error code. -/
def fopen (env : Env) (path : String) (w : World) : Option FILE × World :=
  match w.files path with
  | some _ =>
    (some (FILE.opened path),
      { w with
        openStreams := FILE.opened path :: w.openStreams
        errno := env.errnoAfter ExtCall.fopen w.errno })
  | none => (none, { w with errno := env.errnoAfter ExtCall.fopenFailed w.errno })

/-- The libc call `fclose (fp)`. -/
def fclose (env : Env) (fp : FILE) (w : World) : World :=
  { w with
    openStreams := w.openStreams.erase fp
    errno := env.errnoAfter ExtCall.fclose w.errno }

/-- Modelled from the spec: the byte-span formatter/buffer `wget_buffer_t`,
whose declaration and implementation are outside `logger.c`. It holds a byte
sequence with its length in storage of capacity `size`, which starts as the
preallocated storage and is on the heap (`heap`) once it has grown. -/
structure wget_buffer_t where
  data : List Byte
  length : Nat
  size : Nat
  heap : Bool
deriving DecidableEq, Repr

/-- Modelled from the spec: `wget_buffer_init (buf, data, size)`, the
formatter's `init (with preallocated storage)`: an empty buffer over
preallocated storage of `size` bytes. -/
def wget_buffer_init (size : Nat) : wget_buffer_t :=
  { data := [], length := 0, size := size, heap := false }

/-- Modelled from the spec: `wget_buffer_vprintf (buf, fmt, args)`, the
formatter's `appendFormatted (format, args)`: the buffer then holds the
rendering with its length; "if the formatted size exceeds the stack buffer's
capacity, the buffer transparently grows onto the heap ... to hold the full
output". -/
def wget_buffer_vprintf (env : Env) (buf : wget_buffer_t) (fmt : String) (args : List Arg)
    (w : World) : wget_buffer_t × World :=
  let r := env.render fmt args
  let w1 := { w with errno := env.errnoAfter ExtCall.format w.errno }
  if r.length ≤ buf.size then
    ({ buf with data := r, length := r.length }, w1)
  else
    ({ data := r, length := r.length, size := r.length, heap := true }, w1)

/-- Modelled from the spec: `wget_buffer_deinit (buf)`, the formatter's
`dispose ()`: releases storage that has grown onto the heap. -/
def wget_buffer_deinit (env : Env) (_buf : wget_buffer_t) (w : World) : World :=
  { w with errno := env.errnoAfter ExtCall.release w.errno }

/-! ## The dispatch entries (`logger.c`, lines 38-103) -/

/-- Embedding of `_logger_vprintf_func`. -/
def _logger_vprintf_func (env : Env) (logger : wget_logger_t) (fmt : String)
    (args : List Arg) (w : World) : Option World :=
  let err := w.errno
  let buf := wget_buffer_init 4096
  let (buf, w) := wget_buffer_vprintf env buf fmt args w
  match logger.func with
  | none => none
  | some func =>
    let w := callFunc env func buf.data buf.length w
    let w := wget_buffer_deinit env buf w
    some { w with errno := err }

/-- Embedding of `_logger_write_func`. -/
def _logger_write_func (env : Env) (logger : wget_logger_t) (buf : List Byte) (len : Nat)
    (w : World) : Option World :=
  match logger.func with
  | none => none
  | some func => some (callFunc env func buf len w)

/-- Embedding of `_logger_vfprintf`. -/
def _logger_vfprintf (env : Env) (fp : Option FILE) (fmt : String) (args : List Arg)
    (w : World) : Option World :=
  let err := w.errno
  let buf := wget_buffer_init 4096
  let (buf, w) := wget_buffer_vprintf env buf fmt args w
  match fp with
  | none => none
  | some fp =>
    let w := fwrite env buf.data buf.length fp w
    let w := wget_buffer_deinit env buf w
    some { w with errno := err }

/-- Embedding of `_logger_vprintf_file`. -/
def _logger_vprintf_file (env : Env) (logger : wget_logger_t) (fmt : String)
    (args : List Arg) (w : World) : Option World :=
  _logger_vfprintf env logger.fp fmt args w

/-- Embedding of `_logger_write_file`. -/
def _logger_write_file (env : Env) (logger : wget_logger_t) (buf : List Byte) (len : Nat)
    (w : World) : Option World :=
  match logger.fp with
  | none => none
  | some fp => some (fwrite env buf len fp w)

/-- Embedding of `_logger_vprintf_fname`. -/
def _logger_vprintf_fname (env : Env) (logger : wget_logger_t) (fmt : String)
    (args : List Arg) (w : World) : Option World :=
  match logger.fname with
  | none => none
  | some fname =>
    match fopen env fname w with
    | (some fp, w) =>
      match _logger_vfprintf env (some fp) fmt args w with
      | some w => some (fclose env fp w)
      | none => none
    | (none, w) => some w

/-- Embedding of `_logger_write_fname`. -/
def _logger_write_fname (env : Env) (logger : wget_logger_t) (buf : List Byte) (len : Nat)
    (w : World) : Option World :=
  match logger.fname with
  | none => none
  | some fname =>
    match fopen env fname w with
    | (some fp, w) =>
      let w := fwrite env buf len fp w
      some (fclose env fp w)
    | (none, w) => some w

/-- The function a `vprintf` entry points to. -/
def VprintfFn.call : VprintfFn → Env → wget_logger_t → String → List Arg → World → Option World
  | .func => _logger_vprintf_func
  | .file => _logger_vprintf_file
  | .fname => _logger_vprintf_fname

/-- The function a `write` entry points to. -/
def WriteFn.call : WriteFn → Env → wget_logger_t → List Byte → Nat → World → Option World
  | .func => _logger_write_func
  | .file => _logger_write_file
  | .fname => _logger_write_fname

/-- The call `logger->vprintf (logger, fmt, args)` through the stored entry. -/
def call_vprintf (env : Env) (logger : Option wget_logger_t) (fmt : String)
    (args : List Arg) (w : World) : Option World :=
  match logger with
  | none => none
  | some l =>
    match l.vprintf with
    | none => none
    | some fn => fn.call env l fmt args w

/-- The call `logger->write (logger, buf, len)` through the stored entry. -/
def call_write (env : Env) (logger : Option wget_logger_t) (buf : List Byte) (len : Nat)
    (w : World) : Option World :=
  match logger with
  | none => none
  | some l =>
    match l.write with
    | none => none
    | some fn => fn.call env l buf len w

/-- Modelled from the spec: the operation `Write (bytes)`, whose body is in the
callers of the logger, outside `logger.c`: "delivers a raw byte span to the
active backend"; "If `sinkKind == None`, `Write` is a no-op". -/
def Write (env : Env) (logger : wget_logger_t) (buf : List Byte) (len : Nat)
    (w : World) : Option World :=
  if logger.write.isSome then call_write env (some logger) buf len w else some w

/-- Modelled from the spec: the operation `Formatted (format, args)`, whose
body is in the callers of the logger, outside `logger.c`: it formats and
forwards "through the same three-way dispatch as `Write`", and is a no-op in
state `None`. -/
def Formatted (env : Env) (logger : wget_logger_t) (fmt : String) (args : List Arg)
    (w : World) : Option World :=
  if logger.vprintf.isSome then call_vprintf env (some logger) fmt args w else some w

/-! ## The most recent argument of each setter -/

/-- The argument of the first `wget_logger_set_func` call in a list of calls
given most recent call first; null when there is none. -/
def mostRecentFunc : List SetterCall → Option Func
  | [] => none
  | .set_func func :: _ => func
  | _ :: earlier => mostRecentFunc earlier

/-- The argument of the first `wget_logger_set_stream` call in a list of calls
given most recent call first; null when there is none. -/
def mostRecentStream : List SetterCall → Option FILE
  | [] => none
  | .set_stream fp :: _ => fp
  | _ :: earlier => mostRecentStream earlier

/-- The argument of the first `wget_logger_set_file` call in a list of calls
given most recent call first; null when there is none. -/
def mostRecentFile : List SetterCall → Option String
  | [] => none
  | .set_file fname :: _ => fname
  | _ :: earlier => mostRecentFile earlier

/-- The value last passed to `wget_logger_set_func` in a sequence of calls
(first call first). -/
def lastFuncArg (cs : List SetterCall) : Option Func := mostRecentFunc cs.reverse

/-- The value last passed to `wget_logger_set_stream` in a sequence of calls
(first call first). -/
def lastStreamArg (cs : List SetterCall) : Option FILE := mostRecentStream cs.reverse

/-- The value last passed to `wget_logger_set_file` in a sequence of calls
(first call first). -/
def lastFileArg (cs : List SetterCall) : Option String := mostRecentFile cs.reverse

/-! ## Memory helpers (`mem.c`) -/

/-- The bytes at the offsets 0, 1, 2, ... from a non-null pointer. -/
abbrev Mem := Nat → Byte

/-- One store of a byte at an offset from the destination pointer. -/
abbrev Store := Nat × Byte

/-- Perform stores on a memory region, first store first. -/
def applyStores (stores : List Store) (s : Mem) : Mem :=
  stores.foldl (fun mem st => Function.update mem st.1 st.2) s

/-- The stores of the libc call `memmove (s, m, n)`: offset `i` of the
destination receives the byte the source held at offset `i`, for `i < n`. -/
def memmove_stores (m : Mem) (n : Nat) : List Store :=
  (List.range n).map (fun i => (i, m i))

/-- The stores `wget_strmemcpy (s, ssize, m, n)` performs on a non-null
destination, in order. -/
def wget_strmemcpy_stores (ssize : Nat) (m : Option Mem) (n : Nat) : List Store :=
  if ssize = 0 then []
  else
    if n > 0 then
      let n1 := if n ≥ ssize then ssize - 1 else n
      match m with
      | some src => memmove_stores src n1 ++ [(n1, NUL)]
      | none => [(0, NUL)]
    else [(n, NUL)]

/-- Embedding of `wget_strmemcpy`: the destination region after the call;
`none` stands for a null destination, on which nothing is done. -/
def wget_strmemcpy (s : Option Mem) (ssize : Nat) (m : Option Mem) (n : Nat) : Option Mem :=
  match s with
  | none => none
  | some dst => some (applyStores (wget_strmemcpy_stores ssize m n) dst)

/-- The region that holds the characters of a string followed by NULs. -/
def memOfString (str : String) : Mem := fun i => str.toList.getD i NUL

/-- The first `n` bytes of a region. -/
def Mem.firstBytes (s : Mem) (n : Nat) : List Byte := (List.range n).map s

/-! ## Sample surroundings -/

/-- Modelled from the spec: the rendering of a `printf`-style template, for the
conversions `%d`, `%s` and `%%` without flags; other characters are copied. -/
def printfModel : List Char → List Arg → List Byte
  | '%' :: 'd' :: rest, Arg.int i :: args => (toString i).toList ++ printfModel rest args
  | '%' :: 's' :: rest, Arg.str str :: args => str.toList ++ printfModel rest args
  | '%' :: '%' :: rest, args => '%' :: printfModel rest args
  | c :: rest, args => c :: printfModel rest args
  | [], _ => []

/-- Surroundings in which every external call overwrites `errno`: a failed
`fopen` stores 2 (`ENOENT`), every other call stores 5 (`EIO`). -/
def clobberEnv : Env :=
  { render := fun fmt args => printfModel fmt.toList args
    errnoAfter := fun c _ => if c = ExtCall.fopenFailed then 2 else 5 }

/-- A world with `errno` 0 and no output yet, in which every path can be
opened for append except `/nonexistent/wget.log`. -/
def sampleWorld : World :=
  { errno := 0
    calls := []
    streams := fun _ => []
    files := fun path => if path = "/nonexistent/wget.log" then none else some []
    openStreams := [] }

/-- A logger after `wget_logger_set_func` with callback 7. -/
def funcLogger : wget_logger_t :=
  { emptyLogger with func := some 7, vprintf := some VprintfFn.func, write := some WriteFn.func }

/-- A logger after `wget_logger_set_stream` with the caller stream 1. -/
def streamLogger : wget_logger_t :=
  { emptyLogger with
    fp := some (FILE.user 1), vprintf := some VprintfFn.file, write := some WriteFn.file }

/-- A logger after `wget_logger_set_file` with a path that can be opened. -/
def fileLogger : wget_logger_t :=
  { emptyLogger with
    fname := some "wget.log", vprintf := some VprintfFn.fname, write := some WriteFn.fname }

/-- A logger after `wget_logger_set_file` with a path that cannot be opened. -/
def badFileLogger : wget_logger_t :=
  { emptyLogger with
    fname := some "/nonexistent/wget.log"
    vprintf := some VprintfFn.fname, write := some WriteFn.fname }

/-! ## Duplication helpers (`mem.c`, lines 44-92) -/

/-- The largest value of `size_t` (64 bits); no object in memory has more
bytes than this. -/
def SIZE_MAX : Nat := 18446744073709551615

/-- A non-null pointer to allocated storage: the number of bytes allocated and
the bytes at the offsets from the pointer (those below `size` belong to the
block). -/
structure Block where
  size : Nat
  bytes : Mem

/-- Modelled from the spec: the allocator `xmalloc`, which `mem.c` uses and
does not define. It yields owned storage of `n` bytes and never a null
pointer ("owned bytes or null-if-input-null"); `fresh` is the indeterminate
content of new storage. -/
def xmalloc (fresh : Mem) (n : Nat) : Block :=
  { size := n, bytes := fresh }

/-- The libc call `memcpy (dst, src, n)` into new storage, which returns
`dst`: it stores what `memmove` stores. -/
def memcpy (dst : Block) (src : Mem) (n : Nat) : Block :=
  { dst with bytes := applyStores (memmove_stores src n) dst.bytes }

/-- Search for the first NUL at the offsets `i`, `i + 1`, ... of a region,
over at most `fuel` offsets. -/
def strlenFrom (s : Mem) : Nat → Nat → Option Nat
  | 0, _ => none
  | fuel + 1, i => if s i = NUL then some i else strlenFrom s fuel (i + 1)

/-- The libc call `strlen (s)`: the offset of the first NUL. A string and its
terminator are an object of at most `SIZE_MAX` bytes; `none` stands for a
region without NUL in that range, which is not a string (undefined
behaviour). -/
def strlen (s : Mem) : Option Nat := strlenFrom s SIZE_MAX 0

/-- Embedding of `wget_memdup`. -/
def wget_memdup (fresh : Mem) (m : Option Mem) (n : Nat) : Option Block :=
  match m with
  | some src => some (memcpy (xmalloc fresh n) src n)
  | none => none

/-- Embedding of `wget_strdup`. The outer `none` is the undefined behaviour of
`strlen` on a region that is not a string; `some none` is the result `NULL`. -/
def wget_strdup (fresh : Mem) (s : Option Mem) : Option (Option Block) :=
  match s with
  | some str =>
    match strlen str with
    | some len => some (wget_memdup fresh (some str) ((len + 1) % (SIZE_MAX + 1)))
    | none => none
  | none => some none

/-- Embedding of `wget_strmemdup`. The sum `n + 1` is computed in `size_t`. -/
def wget_strmemdup (fresh : Mem) (m : Option Mem) (n : Nat) : Option Block :=
  match m with
  | none => none
  | some src =>
    let ret := memcpy (xmalloc fresh ((n + 1) % (SIZE_MAX + 1))) src n
    some { ret with bytes := Function.update ret.bytes n NUL }

/-- The stores `wget_strmemcpy (s, ssize, m, n)` performs, in order: none on a
null destination. -/
def wget_strmemcpy_writes (s : Option Mem) (ssize : Nat) (m : Option Mem) (n : Nat) :
    List Store :=
  match s with
  | none => []
  | some _ => wget_strmemcpy_stores ssize m n

/-- Indeterminate content used for new storage in the examples. -/
def sampleFresh : Mem := fun _ => '?'

/-! ## Logger states and output calls -/

/-- The two dispatch entries agree and the slot they read is set: both
entries are null, or both belong to one backend whose slot is non-null. -/
def wget_logger_t.consistent (l : wget_logger_t) : Bool :=
  match l.vprintf, l.write with
  | none, none => true
  | some VprintfFn.func, some WriteFn.func => l.func.isSome
  | some VprintfFn.file, some WriteFn.file => l.fp.isSome
  | some VprintfFn.fname, some WriteFn.fname => l.fname.isSome
  | _, _ => false

/-- Whether a `vprintf` entry and a `write` entry belong to the same backend. -/
def sameBackend : VprintfFn → WriteFn → Bool
  | VprintfFn.func, WriteFn.func => true
  | VprintfFn.file, WriteFn.file => true
  | VprintfFn.fname, WriteFn.fname => true
  | _, _ => false

/-- What has reached the sinks: the callback invocations, the contents of the
caller streams and the contents of the files. -/
def World.output (w : World) :
    List (Func × List Byte × Nat) × (Nat → List Byte) × (String → Option (List Byte)) :=
  (w.calls, w.streams, w.files)

/-- A call through one of the two dispatch entries, with its arguments. -/
inductive OutputCall where
  | write (buf : List Byte) (len : Nat)
  | vprintf (fmt : String) (args : List Arg)
deriving DecidableEq, Repr

/-- The state the dispatch entries run in: the logger object their `logger`
argument points to, and the surroundings. -/
structure LoggerState where
  logger : wget_logger_t
  world : World

/-! ### The dispatch entries as steps on the whole state

The entries of `logger.c` (lines 38-103) once more, each statement a step on
a `LoggerState`: a step replaces what the statement assigns and passes the
rest on. The user callback is taken to act on the surroundings only. -/

/-- Embedding of `_logger_vprintf_func` on the whole state. -/
def Machine._logger_vprintf_func (env : Env) (fmt : String) (args : List Arg)
    (st : LoggerState) : Option LoggerState :=
  let err := st.world.errno
  let buf := wget_buffer_init 4096
  let (buf, w) := wget_buffer_vprintf env buf fmt args st.world
  let st1 : LoggerState := { st with world := w }
  match st1.logger.func with
  | none => none
  | some func =>
    let st2 : LoggerState :=
      { st1 with world := callFunc env func buf.data buf.length st1.world }
    let st3 : LoggerState := { st2 with world := wget_buffer_deinit env buf st2.world }
    some { st3 with world := { st3.world with errno := err } }

/-- Embedding of `_logger_write_func` on the whole state. -/
def Machine._logger_write_func (env : Env) (buf : List Byte) (len : Nat)
    (st : LoggerState) : Option LoggerState :=
  match st.logger.func with
  | none => none
  | some func => some { st with world := callFunc env func buf len st.world }

/-- Embedding of `_logger_vfprintf` on the whole state. -/
def Machine._logger_vfprintf (env : Env) (fp : Option FILE) (fmt : String) (args : List Arg)
    (st : LoggerState) : Option LoggerState :=
  let err := st.world.errno
  let buf := wget_buffer_init 4096
  let (buf, w) := wget_buffer_vprintf env buf fmt args st.world
  let st1 : LoggerState := { st with world := w }
  match fp with
  | none => none
  | some fp =>
    let st2 : LoggerState := { st1 with world := fwrite env buf.data buf.length fp st1.world }
    let st3 : LoggerState := { st2 with world := wget_buffer_deinit env buf st2.world }
    some { st3 with world := { st3.world with errno := err } }

/-- Embedding of `_logger_vprintf_file` on the whole state. -/
def Machine._logger_vprintf_file (env : Env) (fmt : String) (args : List Arg)
    (st : LoggerState) : Option LoggerState :=
  Machine._logger_vfprintf env st.logger.fp fmt args st

/-- Embedding of `_logger_write_file` on the whole state. -/
def Machine._logger_write_file (env : Env) (buf : List Byte) (len : Nat)
    (st : LoggerState) : Option LoggerState :=
  match st.logger.fp with
  | none => none
  | some fp => some { st with world := fwrite env buf len fp st.world }

/-- Embedding of `_logger_vprintf_fname` on the whole state. -/
def Machine._logger_vprintf_fname (env : Env) (fmt : String) (args : List Arg)
    (st : LoggerState) : Option LoggerState :=
  match st.logger.fname with
  | none => none
  | some fname =>
    match fopen env fname st.world with
    | (some fp, w) =>
      match Machine._logger_vfprintf env (some fp) fmt args { st with world := w } with
      | some st1 => some { st1 with world := fclose env fp st1.world }
      | none => none
    | (none, w) => some { st with world := w }

/-- Embedding of `_logger_write_fname` on the whole state. -/
def Machine._logger_write_fname (env : Env) (buf : List Byte) (len : Nat)
    (st : LoggerState) : Option LoggerState :=
  match st.logger.fname with
  | none => none
  | some fname =>
    match fopen env fname st.world with
    | (some fp, w) =>
      let st1 : LoggerState := { st with world := w }
      let st2 : LoggerState := { st1 with world := fwrite env buf len fp st1.world }
      some { st2 with world := fclose env fp st2.world }
    | (none, w) => some { st with world := w }

/-- The function a `vprintf` entry points to, on the whole state. -/
def VprintfFn.run : VprintfFn → Env → String → List Arg → LoggerState → Option LoggerState
  | .func => Machine._logger_vprintf_func
  | .file => Machine._logger_vprintf_file
  | .fname => Machine._logger_vprintf_fname

/-- The function a `write` entry points to, on the whole state. -/
def WriteFn.run : WriteFn → Env → List Byte → Nat → LoggerState → Option LoggerState
  | .func => Machine._logger_write_func
  | .file => Machine._logger_write_file
  | .fname => Machine._logger_write_fname

/-- The call `logger->vprintf (logger, fmt, args)` on the whole state. -/
def Machine.call_vprintf (env : Env) (fmt : String) (args : List Arg) (st : LoggerState) :
    Option LoggerState :=
  match st.logger.vprintf with
  | none => none
  | some fn => fn.run env fmt args st

/-- The call `logger->write (logger, buf, len)` on the whole state. -/
def Machine.call_write (env : Env) (buf : List Byte) (len : Nat) (st : LoggerState) :
    Option LoggerState :=
  match st.logger.write with
  | none => none
  | some fn => fn.run env buf len st

/-- Run one output call on the whole state. -/
def OutputCall.run (env : Env) (c : OutputCall) (st : LoggerState) : Option LoggerState :=
  match c with
  | .write buf len => Machine.call_write env buf len st
  | .vprintf fmt args => Machine.call_vprintf env fmt args st

/-- Run a sequence of output calls, first call first. -/
def runOutputs (env : Env) : List OutputCall → LoggerState → Option LoggerState
  | [], st => some st
  | c :: cs, st =>
    match c.run env st with
    | some st1 => runOutputs env cs st1
    | none => none

/-! ## Theorems -/

/-- A setter call on a non-null logger yields a non-null logger. -/
theorem SetterCall.apply_some (c : SetterCall) (l : wget_logger_t) :
    ∃ l', c.apply (some l) = some l' := by
  cases c <;> exact ⟨_, rfl⟩

/-- A sequence of setter calls on a non-null logger yields a non-null logger. -/
theorem applySetters_some (cs : List SetterCall) (l : wget_logger_t) :
    ∃ l', applySetters cs (some l) = some l' := by
  induction cs generalizing l with
  | nil => exact ⟨l, rfl⟩
  | cons c cs ih =>
    obtain ⟨l1, h1⟩ := c.apply_some l
    obtain ⟨l2, h2⟩ := ih l1
    exact ⟨l2, by simp [applySetters, List.foldl, h1] at h2 ⊢; exact h2⟩

/-- After one setter call on any non-null logger, the activity test reports
exactly whether the argument was non-null. -/
theorem is_active_after_setter (c : SetterCall) (l : wget_logger_t) :
    wget_logger_is_active (c.apply (some l)) = some c.nonNull := by
  cases c <;>
    simp [SetterCall.apply, SetterCall.nonNull, wget_logger_is_active,
      wget_logger_set_func, wget_logger_set_stream, wget_logger_set_file] <;>
    split <;> simp_all

/-- C1: in every logger state reached from the empty logger by a sequence
`cs` of setter calls, one further setter call `c` makes
`wget_logger_is_active` return true if and only if the argument of `c` is
non-null, whatever `cs` was. -/
theorem C1_is_active_reflects_last_setter (cs : List SetterCall) (c : SetterCall) :
    wget_logger_is_active (c.apply (applySetters cs (some emptyLogger)))
      = some c.nonNull := by
  obtain ⟨l, hl⟩ := applySetters_some cs emptyLogger
  rw [hl]
  exact is_active_after_setter c l

/-- With the file-path entry and a path that cannot be opened, the formatted
entry returns with `errno` holding what the failed `fopen` stored. -/
theorem vprintf_fname_open_failure (env : Env) (l : wget_logger_t) (path : String)
    (fmt : String) (args : List Arg) (w : World)
    (hf : l.fname = some path) (hp : w.files path = none) :
    _logger_vprintf_fname env l fmt args w
      = some { w with errno := env.errnoAfter ExtCall.fopenFailed w.errno } := by
  simp [_logger_vprintf_fname, hf, fopen, hp]

/-- C2: the code at a failing input. The file-path backend is active with the
path `/nonexistent/wget.log`, which cannot be opened; `errno` is 0 before the
call of the `vprintf` entry and the failed `fopen` stores 2; after the call
`errno` is 2, not 0. -/
theorem C2_vprintf_fname_open_failure_changes_errno :
    badFileLogger.vprintf = some VprintfFn.fname ∧
    badFileLogger.fname = some "/nonexistent/wget.log" ∧
    sampleWorld.files "/nonexistent/wget.log" = none ∧
    sampleWorld.errno = 0 ∧
    (call_vprintf clobberEnv (some badFileLogger) "%s" [Arg.str "x"] sampleWorld).map
      World.errno = some 2 := by
  refine ⟨rfl, rfl, by decide, rfl, ?_⟩
  have h := vprintf_fname_open_failure clobberEnv badFileLogger "/nonexistent/wget.log"
    "%s" [Arg.str "x"] sampleWorld rfl (by decide)
  simp only [call_vprintf, badFileLogger, VprintfFn.call] at h ⊢
  rw [h]
  decide

/-- The formatted entry of the callback backend restores `errno`. -/
theorem vprintf_func_errno (env : Env) (l : wget_logger_t) (f : Func) (fmt : String)
    (args : List Arg) (w : World) (hf : l.func = some f) :
    ∃ w', _logger_vprintf_func env l fmt args w = some w' ∧ w'.errno = w.errno := by
  unfold _logger_vprintf_func
  simp only [hf]
  exact ⟨_, rfl, rfl⟩

/-- The formatted write to a non-null stream restores `errno`. -/
theorem vfprintf_errno (env : Env) (fp : FILE) (fmt : String) (args : List Arg) (w : World) :
    ∃ w', _logger_vfprintf env (some fp) fmt args w = some w' ∧ w'.errno = w.errno := by
  unfold _logger_vfprintf
  exact ⟨_, rfl, rfl⟩

/-- C3: with the callback backend or the stream backend active, the call of
the `vprintf` entry returns, and `errno` afterwards equals `errno` before the
call, whatever the rendering is and whatever the formatter, the callback, the
stream write and the release of the buffer store in `errno` meanwhile. -/
theorem C3_errno_preserved_callback_and_stream (env : Env) (l : wget_logger_t)
    (fmt : String) (args : List Arg) (w : World)
    (h : (l.vprintf = some VprintfFn.func ∧ l.func.isSome) ∨
         (l.vprintf = some VprintfFn.file ∧ l.fp.isSome)) :
    ∃ w', call_vprintf env (some l) fmt args w = some w' ∧ w'.errno = w.errno := by
  rcases h with ⟨hv, hs⟩ | ⟨hv, hs⟩
  · obtain ⟨f, hf⟩ := Option.isSome_iff_exists.mp hs
    simp only [call_vprintf, hv, VprintfFn.call]
    exact vprintf_func_errno env l f fmt args w hf
  · obtain ⟨fp, hfp⟩ := Option.isSome_iff_exists.mp hs
    simp only [call_vprintf, hv, VprintfFn.call, _logger_vprintf_file, hfp]
    exact vfprintf_errno env fp fmt args w

/-- C3, at concrete inputs: callback 7 and caller stream 1, in surroundings
where every external call overwrites `errno`. -/
theorem C3_errno_preserved_witness :
    ((funcLogger.vprintf = some VprintfFn.func ∧ funcLogger.func.isSome) ∨
      (funcLogger.vprintf = some VprintfFn.file ∧ funcLogger.fp.isSome)) ∧
    (∃ w', call_vprintf clobberEnv (some funcLogger) "%d-%s" [Arg.int 42, Arg.str "ok"]
        sampleWorld = some w' ∧ w'.errno = sampleWorld.errno) ∧
    ((streamLogger.vprintf = some VprintfFn.func ∧ streamLogger.func.isSome) ∨
      (streamLogger.vprintf = some VprintfFn.file ∧ streamLogger.fp.isSome)) ∧
    (∃ w', call_vprintf clobberEnv (some streamLogger) "%d-%s" [Arg.int 42, Arg.str "ok"]
        sampleWorld = some w' ∧ w'.errno = sampleWorld.errno) :=
  ⟨Or.inl ⟨rfl, rfl⟩,
   C3_errno_preserved_callback_and_stream clobberEnv funcLogger "%d-%s"
     [Arg.int 42, Arg.str "ok"] sampleWorld (Or.inl ⟨rfl, rfl⟩),
   Or.inr ⟨rfl, rfl⟩,
   C3_errno_preserved_callback_and_stream clobberEnv streamLogger "%d-%s"
     [Arg.int 42, Arg.str "ok"] sampleWorld (Or.inr ⟨rfl, rfl⟩)⟩

/-- C4, as stated, fails: the empty string is a path of length zero, and
after `wget_logger_set_file` with it on the empty logger the logger is active
and both dispatch entries are the file-path ones. -/
theorem C4_empty_path_counterexample :
    "".length = 0 ∧
    wget_logger_is_active (wget_logger_set_file (some emptyLogger) (some "")) = some true ∧
    (wget_logger_set_file (some emptyLogger) (some "")).map (fun l => l.write)
      = some (some WriteFn.fname) ∧
    (wget_logger_set_file (some emptyLogger) (some "")).map (fun l => l.vprintf)
      = some (some VprintfFn.fname) := by
  decide

/-- C4, amended: for every logger, after `wget_logger_set_file` with a null
path the logger is in state None (`wget_logger_is_active` is false, both
dispatch entries are null); with any non-null path, the empty string of
length zero included, the file-path backend is active
(`wget_logger_is_active` is true, both entries are the file-path ones). -/
theorem C4_set_file_null_deactivates (l : wget_logger_t) :
    (wget_logger_is_active (wget_logger_set_file (some l) none) = some false ∧
     (wget_logger_set_file (some l) none).map (fun l' => l'.write) = some none ∧
     (wget_logger_set_file (some l) none).map (fun l' => l'.vprintf) = some none) ∧
    (∀ path : String,
     wget_logger_is_active (wget_logger_set_file (some l) (some path)) = some true ∧
     (wget_logger_set_file (some l) (some path)).map (fun l' => l'.write)
       = some (some WriteFn.fname) ∧
     (wget_logger_set_file (some l) (some path)).map (fun l' => l'.vprintf)
       = some (some VprintfFn.fname)) := by
  refine ⟨⟨rfl, rfl, rfl⟩, fun path => ⟨rfl, rfl, rfl⟩⟩

/-- The write entry of the callback backend: one invocation of the callback
with the span, and no stream or file touched. -/
theorem write_func_effect (env : Env) (l : wget_logger_t) (b : Func) (buf : List Byte)
    (len : Nat) (w : World) (hw : l.write = some WriteFn.func) (hb : l.func = some b) :
    ∃ w', call_write env (some l) buf len w = some w' ∧
      w'.calls = w.calls ++ [(b, buf, len)] ∧
      (∀ fp, w'.sink fp = w.sink fp) ∧ w'.openStreams = w.openStreams := by
  refine ⟨callFunc env b buf len w, ?_, rfl, ?_, rfl⟩
  · simp [call_write, hw, WriteFn.call, _logger_write_func, hb]
  · intro fp
    cases fp <;> rfl

/-- The effect of `fwrite` on the sinks: the sink behind `fp` receives the
first `len` bytes of `buf`, every other sink keeps its contents. -/
theorem fwrite_sink (env : Env) (buf : List Byte) (len : Nat) (fp : FILE) (w : World) :
    (fwrite env buf len fp w).sink fp = (w.sink fp).map (· ++ buf.take len) ∧
    (∀ fq, fq ≠ fp → (fwrite env buf len fp w).sink fq = w.sink fq) ∧
    (fwrite env buf len fp w).calls = w.calls ∧
    (fwrite env buf len fp w).openStreams = w.openStreams := by
  cases fp with
  | user id =>
    refine ⟨by simp [fwrite, World.sink], ?_, rfl, rfl⟩
    intro fq hq
    cases fq with
    | user j =>
      have : j ≠ id := fun h => hq (by rw [h])
      simp [fwrite, World.sink, Function.update_noteq this]
    | opened q => rfl
  | opened path =>
    refine ⟨by simp [fwrite, World.sink], ?_, rfl, rfl⟩
    intro fq hq
    cases fq with
    | user j => rfl
    | opened q =>
      have : q ≠ path := fun h => hq (by rw [h])
      simp [fwrite, World.sink, Function.update_noteq this]

/-- The write entry of the stream backend: the sink behind the stream
receives the span, no callback is invoked and no other sink is touched. -/
theorem write_file_effect (env : Env) (l : wget_logger_t) (b : FILE) (buf : List Byte)
    (len : Nat) (w : World) (hw : l.write = some WriteFn.file) (hb : l.fp = some b) :
    ∃ w', call_write env (some l) buf len w = some w' ∧
      w'.sink b = (w.sink b).map (· ++ buf.take len) ∧
      (∀ fq, fq ≠ b → w'.sink fq = w.sink fq) ∧
      w'.calls = w.calls ∧ w'.openStreams = w.openStreams := by
  obtain ⟨h1, h2, h3, h4⟩ := fwrite_sink env buf len b w
  refine ⟨fwrite env buf len b w, ?_, h1, h2, h3, h4⟩
  simp [call_write, hw, WriteFn.call, _logger_write_file, hb]

/-- The write entry of the file-path backend: the file at the path, when it
can be opened, receives the span and is closed again; when it cannot be
opened nothing is written. No callback is invoked, no other sink is touched. -/
theorem write_fname_effect (env : Env) (l : wget_logger_t) (b : String) (buf : List Byte)
    (len : Nat) (w : World) (hw : l.write = some WriteFn.fname) (hb : l.fname = some b) :
    ∃ w', call_write env (some l) buf len w = some w' ∧
      w'.sink (FILE.opened b) = (w.sink (FILE.opened b)).map (· ++ buf.take len) ∧
      (∀ fq, fq ≠ FILE.opened b → w'.sink fq = w.sink fq) ∧
      w'.calls = w.calls ∧ w'.openStreams = w.openStreams := by
  simp only [call_write, hw, WriteFn.call, _logger_write_fname, hb]
  cases hp : w.files b with
  | none =>
    refine ⟨{ w with errno := env.errnoAfter ExtCall.fopenFailed w.errno },
      by simp [fopen, hp], ?_, ?_, rfl, rfl⟩
    · simp [World.sink, hp]
    · intro fq _
      cases fq <;> rfl
  | some c =>
    let w1 : World :=
      { w with
        openStreams := FILE.opened b :: w.openStreams
        errno := env.errnoAfter ExtCall.fopen w.errno }
    obtain ⟨h1, h2, h3, h4⟩ := fwrite_sink env buf len (FILE.opened b) w1
    refine ⟨fclose env (FILE.opened b) (fwrite env buf len (FILE.opened b) w1),
      by simp [fopen, hp, w1], ?_, ?_, ?_, ?_⟩
    · exact h1
    · exact h2
    · exact h3
    · show (fwrite env buf len (FILE.opened b) w1).openStreams.erase (FILE.opened b)
        = w.openStreams
      rw [h4]
      simp [w1]

/-- What the write entry of the stream backend delivers: the sink behind the
stream, when there is one, holds the span after its previous contents (a
caller stream always does); when there is none, no sink changes. -/
theorem write_file_delivery (env : Env) (l : wget_logger_t) (b : FILE) (buf : List Byte)
    (len : Nat) (w : World) (hw : l.write = some WriteFn.file) (hb : l.fp = some b) :
    ∃ w', call_write env (some l) buf len w = some w' ∧
      (∀ c, w.sink b = some c → w'.sink b = some (c ++ buf.take len)) ∧
      (w.sink b = none → ∀ fq, w'.sink fq = w.sink fq) ∧
      (∀ id, b = FILE.user id → w'.streams id = w.streams id ++ buf.take len) ∧
      w'.calls = w.calls ∧ (∀ fq, fq ≠ b → w'.sink fq = w.sink fq) := by
  obtain ⟨w', h, h1, h2, hc, _⟩ := write_file_effect env l b buf len w hw hb
  refine ⟨w', h, ?_, ?_, ?_, hc, h2⟩
  · intro c hs
    rw [h1, hs]
    rfl
  · intro hs fq
    by_cases hq : fq = b
    · subst hq
      rw [h1, hs]
      rfl
    · exact h2 fq hq
  · intro id hid
    subst hid
    have h3 : some (w'.streams id) = some (w.streams id ++ buf.take len) := h1
    exact Option.some.inj h3

/-- What the write entry of the file-path backend delivers: the file at the
path, when it can be opened for append, holds the span after its previous
contents; when it cannot be opened, no sink changes. -/
theorem write_fname_delivery (env : Env) (l : wget_logger_t) (b : String) (buf : List Byte)
    (len : Nat) (w : World) (hw : l.write = some WriteFn.fname) (hb : l.fname = some b) :
    ∃ w', call_write env (some l) buf len w = some w' ∧
      (∀ c, w.files b = some c → w'.files b = some (c ++ buf.take len)) ∧
      (w.files b = none → ∀ fq, w'.sink fq = w.sink fq) ∧
      w'.calls = w.calls ∧ (∀ fq, fq ≠ FILE.opened b → w'.sink fq = w.sink fq) := by
  obtain ⟨w', h, h1, h2, hc, _⟩ := write_fname_effect env l b buf len w hw hb
  refine ⟨w', h, ?_, ?_, hc, h2⟩
  · intro c hs
    have hs' : w.sink (FILE.opened b) = some c := hs
    have h3 : w'.sink (FILE.opened b) = some (c ++ buf.take len) := by
      rw [h1, hs']
      rfl
    exact h3
  · intro hs fq
    have hs' : w.sink (FILE.opened b) = none := hs
    by_cases hq : fq = FILE.opened b
    · subst hq
      rw [h1, hs']
      rfl
    · exact h2 fq hq

/-- C5, as stated, fails: after `wget_logger_set_func` with callback 7 and then
`wget_logger_set_file` with the non-null path `/nonexistent/wget.log`, which
cannot be opened, the call of the `write` entry with the two bytes of `hi`
returns with no callback invoked and every stream and file as before: the
file at `b` has not received the bytes. -/
theorem C5_unopenable_path_counterexample :
    "hi".toList.take 2 = ['h', 'i'] ∧
    ∃ w', call_write clobberEnv
        (wget_logger_set_file (wget_logger_set_func (some emptyLogger) (some 7))
          (some "/nonexistent/wget.log"))
        "hi".toList 2 sampleWorld = some w' ∧
      w'.files "/nonexistent/wget.log" = none ∧
      w'.calls = [] ∧
      (∀ fq, w'.sink fq = sampleWorld.sink fq) := by
  refine ⟨by decide, ?_⟩
  obtain ⟨w', h, _, h2, hc, _⟩ := write_fname_delivery clobberEnv
    { emptyLogger with func := some 7, fname := some "/nonexistent/wget.log",
                       vprintf := some VprintfFn.fname, write := some WriteFn.fname }
    "/nonexistent/wget.log" "hi".toList 2 sampleWorld rfl rfl
  have hnone : sampleWorld.files "/nonexistent/wget.log" = none := by decide
  refine ⟨w', h, ?_, ?_, h2 hnone⟩
  · have h3 := h2 hnone (FILE.opened "/nonexistent/wget.log")
    exact h3.trans hnone
  · rw [hc]
    rfl

/-- C5, amended: for two distinct backends A and B and non-null values `a` and
`b`, after set_A (a) followed by set_B (b) on any logger, the call of the
`write` entry with a span `buf`, `len` returns and delivers through B only.
When B is the callback, `b` is invoked once with the span and every stream
and file keeps its contents. When B is the stream, the sink behind `b` holds
the first `len` bytes of `buf` after its previous contents (always so for a
caller stream). When B is the file path and `b` can be opened for append, the
file at `b` holds them after its previous contents. When the sink of B cannot
be written (a path that cannot be opened), the bytes are dropped and no sink
changes. In the stream and file-path cases no callback is invoked, and in
every case each sink other than that of B keeps its contents; so A receives
nothing. -/
theorem C5_write_delivers_through_last_backend_only (env : Env) (l : wget_logger_t)
    (buf : List Byte) (len : Nat) (w : World) :
    (∀ (a : FILE) (b : Func), ∃ w',
      call_write env
        (wget_logger_set_func (wget_logger_set_stream (some l) (some a)) (some b))
        buf len w = some w' ∧
      w'.calls = w.calls ++ [(b, buf, len)] ∧ (∀ fp, w'.sink fp = w.sink fp)) ∧
    (∀ (a : String) (b : Func), ∃ w',
      call_write env
        (wget_logger_set_func (wget_logger_set_file (some l) (some a)) (some b))
        buf len w = some w' ∧
      w'.calls = w.calls ++ [(b, buf, len)] ∧ (∀ fp, w'.sink fp = w.sink fp)) ∧
    (∀ (a : Func) (b : FILE), ∃ w',
      call_write env
        (wget_logger_set_stream (wget_logger_set_func (some l) (some a)) (some b))
        buf len w = some w' ∧
      (∀ c, w.sink b = some c → w'.sink b = some (c ++ buf.take len)) ∧
      (w.sink b = none → ∀ fq, w'.sink fq = w.sink fq) ∧
      (∀ id, b = FILE.user id → w'.streams id = w.streams id ++ buf.take len) ∧
      w'.calls = w.calls ∧ (∀ fq, fq ≠ b → w'.sink fq = w.sink fq)) ∧
    (∀ (a : String) (b : FILE), ∃ w',
      call_write env
        (wget_logger_set_stream (wget_logger_set_file (some l) (some a)) (some b))
        buf len w = some w' ∧
      (∀ c, w.sink b = some c → w'.sink b = some (c ++ buf.take len)) ∧
      (w.sink b = none → ∀ fq, w'.sink fq = w.sink fq) ∧
      (∀ id, b = FILE.user id → w'.streams id = w.streams id ++ buf.take len) ∧
      w'.calls = w.calls ∧ (∀ fq, fq ≠ b → w'.sink fq = w.sink fq)) ∧
    (∀ (a : Func) (b : String), ∃ w',
      call_write env
        (wget_logger_set_file (wget_logger_set_func (some l) (some a)) (some b))
        buf len w = some w' ∧
      (∀ c, w.files b = some c → w'.files b = some (c ++ buf.take len)) ∧
      (w.files b = none → ∀ fq, w'.sink fq = w.sink fq) ∧
      w'.calls = w.calls ∧ (∀ fq, fq ≠ FILE.opened b → w'.sink fq = w.sink fq)) ∧
    (∀ (a : FILE) (b : String), ∃ w',
      call_write env
        (wget_logger_set_file (wget_logger_set_stream (some l) (some a)) (some b))
        buf len w = some w' ∧
      (∀ c, w.files b = some c → w'.files b = some (c ++ buf.take len)) ∧
      (w.files b = none → ∀ fq, w'.sink fq = w.sink fq) ∧
      w'.calls = w.calls ∧ (∀ fq, fq ≠ FILE.opened b → w'.sink fq = w.sink fq)) := by
  refine ⟨?_, ?_, ?_, ?_, ?_, ?_⟩
  · intro a b
    obtain ⟨w', h, hc, hs, _⟩ := write_func_effect env
      { l with fp := some a, func := some b, vprintf := some VprintfFn.func,
               write := some WriteFn.func } b buf len w rfl rfl
    exact ⟨w', h, hc, hs⟩
  · intro a b
    obtain ⟨w', h, hc, hs, _⟩ := write_func_effect env
      { l with fname := some a, func := some b, vprintf := some VprintfFn.func,
               write := some WriteFn.func } b buf len w rfl rfl
    exact ⟨w', h, hc, hs⟩
  · intro a b
    exact write_file_delivery env
      { l with func := some a, fp := some b, vprintf := some VprintfFn.file,
               write := some WriteFn.file } b buf len w rfl rfl
  · intro a b
    exact write_file_delivery env
      { l with fname := some a, fp := some b, vprintf := some VprintfFn.file,
               write := some WriteFn.file } b buf len w rfl rfl
  · intro a b
    exact write_fname_delivery env
      { l with func := some a, fname := some b, vprintf := some VprintfFn.fname,
               write := some WriteFn.fname } b buf len w rfl rfl
  · intro a b
    exact write_fname_delivery env
      { l with fp := some a, fname := some b, vprintf := some VprintfFn.fname,
               write := some WriteFn.fname } b buf len w rfl rfl

/-- C5, amended, at concrete inputs on the empty logger, writing the two bytes
of `hi`: caller stream 1 then callback 7; callback 7 then caller stream 1;
callback 7 then the path `wget.log`, which can be opened and is empty. -/
theorem C5_write_delivers_witness :
    (∃ w', call_write clobberEnv
        (wget_logger_set_func (wget_logger_set_stream (some emptyLogger) (some (FILE.user 1)))
          (some 7))
        "hi".toList 2 sampleWorld = some w' ∧
      w'.calls = sampleWorld.calls ++ [(7, "hi".toList, 2)] ∧
      (∀ fp, w'.sink fp = sampleWorld.sink fp)) ∧
    (∃ w', call_write clobberEnv
        (wget_logger_set_stream (wget_logger_set_func (some emptyLogger) (some 7))
          (some (FILE.user 1)))
        "hi".toList 2 sampleWorld = some w' ∧
      (∀ c, sampleWorld.sink (FILE.user 1) = some c →
        w'.sink (FILE.user 1) = some (c ++ "hi".toList.take 2)) ∧
      (sampleWorld.sink (FILE.user 1) = none → ∀ fq, w'.sink fq = sampleWorld.sink fq) ∧
      (∀ id, FILE.user 1 = FILE.user id →
        w'.streams id = sampleWorld.streams id ++ "hi".toList.take 2) ∧
      w'.calls = sampleWorld.calls ∧
      (∀ fq, fq ≠ FILE.user 1 → w'.sink fq = sampleWorld.sink fq)) ∧
    sampleWorld.files "wget.log" = some [] ∧
    (∃ w', call_write clobberEnv
        (wget_logger_set_file (wget_logger_set_func (some emptyLogger) (some 7))
          (some "wget.log"))
        "hi".toList 2 sampleWorld = some w' ∧
      (∀ c, sampleWorld.files "wget.log" = some c →
        w'.files "wget.log" = some (c ++ "hi".toList.take 2)) ∧
      (sampleWorld.files "wget.log" = none → ∀ fq, w'.sink fq = sampleWorld.sink fq) ∧
      w'.calls = sampleWorld.calls ∧
      (∀ fq, fq ≠ FILE.opened "wget.log" → w'.sink fq = sampleWorld.sink fq)) :=
  ⟨(C5_write_delivers_through_last_backend_only clobberEnv emptyLogger "hi".toList 2
      sampleWorld).1 (FILE.user 1) 7,
   (C5_write_delivers_through_last_backend_only clobberEnv emptyLogger "hi".toList 2
      sampleWorld).2.2.1 7 (FILE.user 1),
   by decide,
   (C5_write_delivers_through_last_backend_only clobberEnv emptyLogger "hi".toList 2
      sampleWorld).2.2.2.2.1 7 "wget.log"⟩

/-- C6: on every logger, whatever backend is active, a setter called with a
null value leaves the logger in state None: both dispatch entries are null,
`wget_logger_is_active` is false, and a following `Write` or `Formatted`
returns with the surroundings unchanged (no callback invoked, no stream or
file written). -/
theorem C6_null_setter_deactivates (env : Env) (l : wget_logger_t) (c : SetterCall)
    (hc : c.nonNull = false) (buf : List Byte) (len : Nat) (fmt : String)
    (args : List Arg) (w : World) :
    ∃ l', c.apply (some l) = some l' ∧
      l'.write = none ∧ l'.vprintf = none ∧
      wget_logger_is_active (some l') = some false ∧
      Write env l' buf len w = some w ∧
      Formatted env l' fmt args w = some w := by
  cases c with
  | set_func v =>
    cases v with
    | some x => simp [SetterCall.nonNull] at hc
    | none => exact ⟨_, rfl, rfl, rfl, rfl, rfl, rfl⟩
  | set_stream v =>
    cases v with
    | some x => simp [SetterCall.nonNull] at hc
    | none => exact ⟨_, rfl, rfl, rfl, rfl, rfl, rfl⟩
  | set_file v =>
    cases v with
    | some x => simp [SetterCall.nonNull] at hc
    | none => exact ⟨_, rfl, rfl, rfl, rfl, rfl, rfl⟩

/-- C6, at a concrete input: the stream backend is active and
`wget_logger_set_func` is called with a null callback. -/
theorem C6_null_setter_witness :
    (SetterCall.set_func none).nonNull = false ∧
    ∃ l', (SetterCall.set_func none).apply (some streamLogger) = some l' ∧
      l'.write = none ∧ l'.vprintf = none ∧
      wget_logger_is_active (some l') = some false ∧
      Write clobberEnv l' "hi".toList 2 sampleWorld = some sampleWorld ∧
      Formatted clobberEnv l' "%d-%s" [Arg.int 42, Arg.str "ok"] sampleWorld
        = some sampleWorld :=
  ⟨rfl, C6_null_setter_deactivates clobberEnv streamLogger (SetterCall.set_func none) rfl
    "hi".toList 2 "%d-%s" [Arg.int 42, Arg.str "ok"] sampleWorld⟩

/-- C7: with the callback backend active, for every format and arguments, the
call of the `vprintf` entry returns after invoking the callback exactly once,
with the whole rendering `r` as buffer and its length as length, whatever the
length of `r` is (also beyond the 4096 bytes of the scratch storage); no
stream or file is touched. -/
theorem C7_formatted_invokes_callback_once (env : Env) (l : wget_logger_t) (f : Func)
    (fmt : String) (args : List Arg) (w : World)
    (hv : l.vprintf = some VprintfFn.func) (hf : l.func = some f) :
    ∃ w', call_vprintf env (some l) fmt args w = some w' ∧
      w'.calls = w.calls ++ [(f, env.render fmt args, (env.render fmt args).length)] ∧
      (∀ fp, w'.sink fp = w.sink fp) := by
  simp only [call_vprintf, hv, VprintfFn.call, _logger_vprintf_func, hf,
    wget_buffer_vprintf, wget_buffer_init]
  split
  · refine ⟨_, rfl, rfl, ?_⟩
    intro fp
    cases fp <;> rfl
  · refine ⟨_, rfl, rfl, ?_⟩
    intro fp
    cases fp <;> rfl

/-- The sample rendering of `%s` with a string argument is that string. -/
theorem render_percent_s (str : String) :
    clobberEnv.render "%s" [Arg.str str] = str.toList := by
  show printfModel ['%', 's'] [Arg.str str] = str.toList
  simp [printfModel]

/-- C7, at concrete inputs: the format `%d-%s` with 42 and `ok` delivers
`42-ok` to callback 7, once; and a payload of 10000 characters under `%s` is
delivered whole. -/
theorem C7_formatted_callback_witness :
    (funcLogger.vprintf = some VprintfFn.func ∧ funcLogger.func = some 7) ∧
    (∃ w', call_vprintf clobberEnv (some funcLogger) "%d-%s" [Arg.int 42, Arg.str "ok"]
        sampleWorld = some w' ∧
      w'.calls = sampleWorld.calls ++
        [(7, clobberEnv.render "%d-%s" [Arg.int 42, Arg.str "ok"],
          (clobberEnv.render "%d-%s" [Arg.int 42, Arg.str "ok"]).length)] ∧
      (∀ fp, w'.sink fp = sampleWorld.sink fp)) ∧
    clobberEnv.render "%d-%s" [Arg.int 42, Arg.str "ok"] = "42-ok".toList ∧
    (∃ w', call_vprintf clobberEnv (some funcLogger) "%s"
        [Arg.str (String.mk (List.replicate 10000 'x'))] sampleWorld = some w' ∧
      w'.calls = sampleWorld.calls ++
        [(7, clobberEnv.render "%s" [Arg.str (String.mk (List.replicate 10000 'x'))],
          (clobberEnv.render "%s" [Arg.str (String.mk (List.replicate 10000 'x'))]).length)] ∧
      (∀ fp, w'.sink fp = sampleWorld.sink fp)) ∧
    clobberEnv.render "%s" [Arg.str (String.mk (List.replicate 10000 'x'))]
      = List.replicate 10000 'x' :=
  ⟨⟨rfl, rfl⟩,
   C7_formatted_invokes_callback_once clobberEnv funcLogger 7 "%d-%s"
     [Arg.int 42, Arg.str "ok"] sampleWorld rfl rfl,
   by decide,
   C7_formatted_invokes_callback_once clobberEnv funcLogger 7 "%s"
     [Arg.str (String.mk (List.replicate 10000 'x'))] sampleWorld rfl rfl,
   render_percent_s (String.mk (List.replicate 10000 'x'))⟩

/-- A setter call appended to a sequence runs last. -/
theorem applySetters_append_singleton (cs : List SetterCall) (c : SetterCall)
    (logger : Option wget_logger_t) :
    applySetters (cs ++ [c]) logger = c.apply (applySetters cs logger) := by
  simp [applySetters, List.foldl_append]

/-- What the three getters return after one setter call on a non-null logger:
the slot of the setter holds the argument, the other two slots are kept. -/
theorem getters_after_setter (c : SetterCall) (l : wget_logger_t) :
    wget_logger_get_func (c.apply (some l))
      = (match c with
         | .set_func func => func
         | _ => wget_logger_get_func (some l)) ∧
    wget_logger_get_stream (c.apply (some l))
      = (match c with
         | .set_stream fp => fp
         | _ => wget_logger_get_stream (some l)) ∧
    wget_logger_get_file (c.apply (some l))
      = (match c with
         | .set_file fname => fname
         | _ => wget_logger_get_file (some l)) := by
  cases c <;> exact ⟨rfl, rfl, rfl⟩

/-- C8: after every sequence `cs` of setter calls on the empty logger, each
getter returns the value last passed to its own setter in `cs` (null when
that setter was not called), whichever backend is active; and on every
logger each setter stores its argument in its own slot and leaves the other
two slots as they were. -/
theorem C8_getters_return_last_set_value (cs : List SetterCall) (l : wget_logger_t)
    (func : Option Func) (fp : Option FILE) (fname : Option String) :
    (wget_logger_get_func (applySetters cs (some emptyLogger)) = lastFuncArg cs ∧
     wget_logger_get_stream (applySetters cs (some emptyLogger)) = lastStreamArg cs ∧
     wget_logger_get_file (applySetters cs (some emptyLogger)) = lastFileArg cs) ∧
    (wget_logger_get_func (wget_logger_set_func (some l) func) = func ∧
     wget_logger_get_stream (wget_logger_set_func (some l) func)
       = wget_logger_get_stream (some l) ∧
     wget_logger_get_file (wget_logger_set_func (some l) func)
       = wget_logger_get_file (some l)) ∧
    (wget_logger_get_func (wget_logger_set_stream (some l) fp)
       = wget_logger_get_func (some l) ∧
     wget_logger_get_stream (wget_logger_set_stream (some l) fp) = fp ∧
     wget_logger_get_file (wget_logger_set_stream (some l) fp)
       = wget_logger_get_file (some l)) ∧
    (wget_logger_get_func (wget_logger_set_file (some l) fname)
       = wget_logger_get_func (some l) ∧
     wget_logger_get_stream (wget_logger_set_file (some l) fname)
       = wget_logger_get_stream (some l) ∧
     wget_logger_get_file (wget_logger_set_file (some l) fname) = fname) := by
  refine ⟨?_, ⟨rfl, rfl, rfl⟩, ⟨rfl, rfl, rfl⟩, ⟨rfl, rfl, rfl⟩⟩
  induction cs using List.reverseRecOn with
  | nil => exact ⟨rfl, rfl, rfl⟩
  | append_singleton cs c ih =>
    obtain ⟨l1, h1⟩ := applySetters_some cs emptyLogger
    obtain ⟨g1, g2, g3⟩ := getters_after_setter c l1
    rw [h1] at ih
    obtain ⟨i1, i2, i3⟩ := ih
    rw [applySetters_append_singleton, h1, g1, g2, g3, i1, i2, i3]
    cases c <;>
      simp [lastFuncArg, lastStreamArg, lastFileArg, mostRecentFunc, mostRecentStream,
        mostRecentFile]

/-- C9: with the file-path backend active on path `p`, the call of the `write`
entry with the span `buf`, `len` returns. If `p` can be opened for append,
the file then holds its previous contents followed by the first `len` bytes
of `buf`, no stream opened by the call is left open, and no other file, no
caller stream and no callback is touched. If `p` cannot be opened, no file
and no stream is modified and no callback is invoked. The entry has no result
value and takes the logger read-only, so nothing is reported and the logger
is as before. -/
theorem C9_write_fname_appends_or_drops (env : Env) (l : wget_logger_t) (p : String)
    (buf : List Byte) (len : Nat) (w : World)
    (hw : l.write = some WriteFn.fname) (hf : l.fname = some p) :
    (∀ c, w.files p = some c →
      ∃ w', call_write env (some l) buf len w = some w' ∧
        w'.files p = some (c ++ buf.take len) ∧
        w'.openStreams = w.openStreams ∧
        (∀ q, q ≠ p → w'.files q = w.files q) ∧
        (∀ id, w'.streams id = w.streams id) ∧
        w'.calls = w.calls) ∧
    (w.files p = none →
      ∃ w', call_write env (some l) buf len w = some w' ∧
        (∀ q, w'.files q = w.files q) ∧
        (∀ id, w'.streams id = w.streams id) ∧
        w'.calls = w.calls ∧
        w'.openStreams = w.openStreams) := by
  constructor
  · intro c hp
    simp only [call_write, hw, WriteFn.call, _logger_write_fname, hf, fopen, hp]
    refine ⟨_, rfl, ?_, ?_, ?_, ?_, rfl⟩
    · simp [fclose, fwrite, hp]
    · simp [fclose, fwrite]
    · intro q hq
      simp [fclose, fwrite, Function.update_noteq hq]
    · intro id
      rfl
  · intro hp
    simp only [call_write, hw, WriteFn.call, _logger_write_fname, hf, fopen, hp]
    exact ⟨_, rfl, fun _ => rfl, fun _ => rfl, rfl, rfl⟩

/-- C9, at concrete inputs: the path `wget.log` can be opened and is empty,
the path `/nonexistent/wget.log` cannot be opened. -/
theorem C9_write_fname_witness :
    (fileLogger.write = some WriteFn.fname ∧ fileLogger.fname = some "wget.log" ∧
      sampleWorld.files "wget.log" = some []) ∧
    (∃ w', call_write clobberEnv (some fileLogger) "hi".toList 2 sampleWorld = some w' ∧
        w'.files "wget.log" = some ([] ++ "hi".toList.take 2) ∧
        w'.openStreams = sampleWorld.openStreams ∧
        (∀ q, q ≠ "wget.log" → w'.files q = sampleWorld.files q) ∧
        (∀ id, w'.streams id = sampleWorld.streams id) ∧
        w'.calls = sampleWorld.calls) ∧
    (badFileLogger.write = some WriteFn.fname ∧
      badFileLogger.fname = some "/nonexistent/wget.log" ∧
      sampleWorld.files "/nonexistent/wget.log" = none) ∧
    (∃ w', call_write clobberEnv (some badFileLogger) "hi".toList 2 sampleWorld = some w' ∧
        (∀ q, w'.files q = sampleWorld.files q) ∧
        (∀ id, w'.streams id = sampleWorld.streams id) ∧
        w'.calls = sampleWorld.calls ∧
        w'.openStreams = sampleWorld.openStreams) :=
  ⟨⟨rfl, rfl, by decide⟩,
   (C9_write_fname_appends_or_drops clobberEnv fileLogger "wget.log" "hi".toList 2
     sampleWorld rfl rfl).1 [] (by decide),
   ⟨rfl, rfl, by decide⟩,
   (C9_write_fname_appends_or_drops clobberEnv badFileLogger "/nonexistent/wget.log"
     "hi".toList 2 sampleWorld rfl rfl).2 (by decide)⟩

/-- The stores of `memmove` give the destination the first `n` bytes of the
source and leave the other bytes. -/
theorem applyStores_memmove (s m : Mem) (n i : Nat) :
    applyStores (memmove_stores m n) s i = if i < n then m i else s i := by
  induction n with
  | zero => simp [memmove_stores, applyStores]
  | succ k ih =>
    have hk : applyStores (memmove_stores m (k + 1)) s
        = Function.update (applyStores (memmove_stores m k) s) k (m k) := by
      simp [memmove_stores, applyStores, List.range_succ, List.foldl_append]
    rw [hk]
    by_cases hik : i = k
    · subst hik
      simp
    · rw [Function.update_noteq hik, ih]
      by_cases hlt : i < k
      · have : i < k + 1 := by omega
        simp [hlt, this]
      · have : ¬ i < k + 1 := by omega
        simp [hlt, this]

/-- The destination after `wget_strmemcpy` with non-null destination and
source and a non-zero size: the first `k` bytes of the source, then NUL at
offset `k`, where `k` is the smaller of `n` and `ssize - 1`. -/
theorem strmemcpy_result (s m : Mem) (ssize n : Nat) (h : 1 ≤ ssize) :
    wget_strmemcpy (some s) ssize (some m) n
      = some (Function.update (applyStores (memmove_stores m (min n (ssize - 1))) s)
          (min n (ssize - 1)) NUL) := by
  have h0 : ssize ≠ 0 := by omega
  simp only [wget_strmemcpy, wget_strmemcpy_stores, h0, if_false]
  by_cases hn : n > 0
  · by_cases hge : n ≥ ssize
    · have hk : min n (ssize - 1) = ssize - 1 := by omega
      simp [hn, hge, hk, applyStores, List.foldl_append]
    · have hk : min n (ssize - 1) = n := by omega
      simp [hn, hge, hk, applyStores, List.foldl_append]
  · have hz : n = 0 := by omega
    subst hz
    simp [applyStores, memmove_stores]

/-- C10: for a non-null destination of capacity `ssize >= 1` and a non-null
source of `n` bytes, `wget_strmemcpy` leaves `s[i] = m[i]` for all `i < k` and
`s[k] = 0`, where `k = min (n, ssize - 1)`: at most `ssize - 1` bytes are
copied and the result is NUL-terminated. -/
theorem C10_strmemcpy_copies_and_terminates (s m : Mem) (ssize n : Nat) (h : 1 ≤ ssize) :
    ∃ s', wget_strmemcpy (some s) ssize (some m) n = some s' ∧
      (∀ i, i < min n (ssize - 1) → s' i = m i) ∧
      s' (min n (ssize - 1)) = NUL := by
  refine ⟨_, strmemcpy_result s m ssize n h, ?_, ?_⟩
  · intro i hi
    have hne : i ≠ min n (ssize - 1) := by omega
    rw [Function.update_noteq hne, applyStores_memmove]
    simp [hi]
  · simp

/-- C10, at concrete inputs: `ssize = 5` and the 11 bytes of `hello world`
give `hell` followed by NUL. -/
theorem C10_strmemcpy_witness :
    1 ≤ 5 ∧
    (∃ s', wget_strmemcpy (some (fun _ => 'x')) 5 (some (memOfString "hello world")) 11
        = some s' ∧
      (∀ i, i < min 11 (5 - 1) → s' i = memOfString "hello world" i) ∧
      s' (min 11 (5 - 1)) = NUL) ∧
    (wget_strmemcpy (some (fun _ => 'x')) 5 (some (memOfString "hello world")) 11).map
        (fun s' => s'.firstBytes 5) = some ("hell".toList ++ [NUL]) :=
  ⟨by decide,
   C10_strmemcpy_copies_and_terminates (fun _ => 'x') (memOfString "hello world") 5 11
     (by decide),
   by decide⟩

/-- The search of `strlenFrom` finds the first NUL when it is in range. -/
theorem strlenFrom_first (s : Mem) (fuel i k : Nat) (hik : i ≤ k) (hk : k < i + fuel)
    (hz : s k = NUL) (hfirst : ∀ j, i ≤ j → j < k → s j ≠ NUL) :
    strlenFrom s fuel i = some k := by
  induction fuel generalizing i with
  | zero => omega
  | succ f ih =>
    unfold strlenFrom
    by_cases hi : i = k
    · subst hi
      simp [hz]
    · have hne : s i ≠ NUL := hfirst i (le_refl i) (by omega)
      simp only [hne, if_false]
      exact ih (i + 1) (by omega) (by omega) (fun j h1 h2 => hfirst j (by omega) h2)

/-- What `strlen` returns is the offset of the first NUL. -/
theorem strlen_first (s : Mem) (k : Nat) (hk : k < SIZE_MAX) (hz : s k = NUL)
    (hfirst : ∀ j, j < k → s j ≠ NUL) : strlen s = some k :=
  strlenFrom_first s SIZE_MAX 0 k (Nat.zero_le k) (by omega) hz (fun j _ h => hfirst j h)

/-- A region with a NUL within `SIZE_MAX` bytes has a length: the offset of
its first NUL. -/
theorem strlen_of_terminated (s : Mem) (h : ∃ k, k < SIZE_MAX ∧ s k = NUL) :
    ∃ len, strlen s = some len ∧ len < SIZE_MAX ∧ s len = NUL ∧
      ∀ j, j < len → s j ≠ NUL := by
  classical
  have h' : ∃ k, s k = NUL := by
    obtain ⟨k, _, hz⟩ := h
    exact ⟨k, hz⟩
  obtain ⟨k, hk, hz⟩ := h
  have hmin : Nat.find h' ≤ k := Nat.find_min' h' hz
  have hspec : s (Nat.find h') = NUL := Nat.find_spec h'
  have hfirst : ∀ j, j < Nat.find h' → s j ≠ NUL := fun j hj => Nat.find_min h' hj
  exact ⟨Nat.find h', strlen_first s _ (by omega) hspec hfirst, by omega, hspec, hfirst⟩

/-- The content of the block `memcpy` fills: the first `n` bytes of the
source, then what the block held. -/
theorem memcpy_bytes (dst : Block) (src : Mem) (n i : Nat) :
    (memcpy dst src n).bytes i = if i < n then src i else dst.bytes i := by
  simp [memcpy, applyStores_memmove]

/-- The result of `wget_strdup` on a string: a block of `len + 1` bytes that
holds the bytes of the string up to and including its terminator. -/
theorem strdup_result (fresh s : Mem) (h : ∃ k, k < SIZE_MAX ∧ s k = NUL) :
    ∃ len b, strlen s = some len ∧ wget_strdup fresh (some s) = some (some b) ∧
      b.size = len + 1 ∧ (∀ i, i ≤ len → b.bytes i = s i) ∧
      strlen b.bytes = some len := by
  obtain ⟨len, hlen, hlt, hz, hfirst⟩ := strlen_of_terminated s h
  have hmod : (len + 1) % (SIZE_MAX + 1) = len + 1 := Nat.mod_eq_of_lt (by omega)
  have hbytes : ∀ i, i ≤ len → (memcpy (xmalloc fresh (len + 1)) s (len + 1)).bytes i = s i := by
    intro i hi
    have : i < len + 1 := by omega
    rw [memcpy_bytes]
    simp [this]
  refine ⟨len, memcpy (xmalloc fresh (len + 1)) s (len + 1), hlen, ?_, rfl, hbytes, ?_⟩
  · simp only [wget_strdup, hlen, hmod, wget_memdup]
  · apply strlen_first _ len hlt
    · rw [hbytes len (le_refl len)]
      exact hz
    · intro j hj
      rw [hbytes j (by omega)]
      exact hfirst j hj

/-- The result of `wget_strmemdup` on a non-null region of `n` bytes, when
`n + 1` does not wrap: a block of `n + 1` bytes, the first `n` from the
region, then NUL. -/
theorem strmemdup_result (fresh m : Mem) (n : Nat) (hn : n < SIZE_MAX) :
    ∃ b, wget_strmemdup fresh (some m) n = some b ∧ b.size = n + 1 ∧
      (∀ i, i < n → b.bytes i = m i) ∧ b.bytes n = NUL := by
  have hmod : (n + 1) % (SIZE_MAX + 1) = n + 1 := Nat.mod_eq_of_lt (by omega)
  refine ⟨_, rfl, ?_, ?_, ?_⟩
  · simp [memcpy, xmalloc, hmod]
  · intro i hi
    have hne : i ≠ n := by omega
    dsimp only
    rw [Function.update_noteq hne, memcpy_bytes]
    simp [hi]
  · simp

/-- C11: `wget_memdup (NULL, n)`, `wget_strdup (NULL)` and
`wget_strmemdup (NULL, n)` return `NULL`; for a non-null input each of the
three returns a non-null result, so the result of `wget_memdup` and of
`wget_strmemdup` is null if and only if the input is null, and `wget_strdup`
of a string is non-null. -/
theorem C11_dup_null_iff_null (fresh : Mem) (n : Nat) :
    wget_memdup fresh none n = none ∧
    wget_strdup fresh none = some none ∧
    wget_strmemdup fresh none n = none ∧
    (∀ m : Option Mem, wget_memdup fresh m n = none ↔ m = none) ∧
    (∀ m : Option Mem, wget_strmemdup fresh m n = none ↔ m = none) ∧
    (∀ s : Mem, (∃ k, k < SIZE_MAX ∧ s k = NUL) →
      ∃ b, wget_strdup fresh (some s) = some (some b)) := by
  refine ⟨rfl, rfl, rfl, ?_, ?_, ?_⟩
  · intro m
    cases m <;> simp [wget_memdup]
  · intro m
    cases m <;> simp [wget_strmemdup]
  · intro s hs
    obtain ⟨len, b, _, hb, _⟩ := strdup_result fresh s hs
    exact ⟨b, hb⟩

/-- C11, at a concrete input: the string `abc`. -/
theorem C11_dup_null_witness :
    (∃ k, k < SIZE_MAX ∧ memOfString "abc" k = NUL) ∧
    (∃ b, wget_strdup sampleFresh (some (memOfString "abc")) = some (some b)) ∧
    (wget_memdup sampleFresh (some (memOfString "abc")) 3).isSome = true ∧
    (wget_strmemdup sampleFresh (some (memOfString "abc")) 3).isSome = true :=
  ⟨⟨3, by decide, by decide⟩,
   (C11_dup_null_iff_null sampleFresh 3).2.2.2.2.2 (memOfString "abc")
     ⟨3, by decide, by decide⟩,
   rfl, rfl⟩

/-- C12: for a non-null region `m` of `n` bytes, `wget_memdup (m, n)` returns a
block of exactly `n` bytes equal byte for byte to `m[0..n)`, also for `n = 0`;
for a non-null NUL-terminated string `s`, `wget_strdup (s)` returns a block of
`strlen (s) + 1` bytes that holds the bytes of `s` with the terminator, so the
copy is a string equal to `s`. -/
theorem C12_dup_preserves_content (fresh m : Mem) (n : Nat) :
    (∃ b, wget_memdup fresh (some m) n = some b ∧ b.size = n ∧
      ∀ i, i < n → b.bytes i = m i) ∧
    (∀ s : Mem, (∃ k, k < SIZE_MAX ∧ s k = NUL) →
      ∃ len b, strlen s = some len ∧ wget_strdup fresh (some s) = some (some b) ∧
        b.size = len + 1 ∧ (∀ i, i ≤ len → b.bytes i = s i) ∧
        strlen b.bytes = some len) := by
  constructor
  · refine ⟨_, rfl, rfl, ?_⟩
    intro i hi
    rw [memcpy_bytes]
    simp [hi]
  · intro s hs
    exact strdup_result fresh s hs

/-- C12, at concrete inputs: the three bytes `abc` and the string `abc`, whose
copy is the four bytes `abc` and NUL. -/
theorem C12_dup_content_witness :
    (∃ k, k < SIZE_MAX ∧ memOfString "abc" k = NUL) ∧
    (∃ len b, strlen (memOfString "abc") = some len ∧
      wget_strdup sampleFresh (some (memOfString "abc")) = some (some b) ∧
      b.size = len + 1 ∧ (∀ i, i ≤ len → b.bytes i = memOfString "abc" i) ∧
      strlen b.bytes = some len) ∧
    (wget_strdup sampleFresh (some (memOfString "abc"))).map
      (fun r => r.map (fun b => (b.size, b.bytes.firstBytes 4)))
      = some (some (4, "abc".toList ++ [NUL])) ∧
    (wget_memdup sampleFresh (some (memOfString "abc")) 3).map
      (fun b => (b.size, b.bytes.firstBytes 3)) = some (3, "abc".toList) :=
  ⟨⟨3, by decide, by decide⟩,
   (C12_dup_preserves_content sampleFresh (memOfString "abc") 3).2 (memOfString "abc")
     ⟨3, by decide, by decide⟩,
   by decide, by decide⟩

/-- C13: for a non-null region `m` of `n` bytes, `wget_strmemdup (m, n)` returns
a block of `n + 1` bytes whose first `n` bytes are `m[0..n)` and whose byte at
offset `n` is NUL; its C-string length is `n` when `m[0..n)` has no NUL, and
the offset of the first NUL of `m[0..n)` otherwise. -/
theorem C13_strmemdup_makes_string (fresh m : Mem) (n : Nat) (hn : n < SIZE_MAX) :
    ∃ b, wget_strmemdup fresh (some m) n = some b ∧ b.size = n + 1 ∧
      (∀ i, i < n → b.bytes i = m i) ∧ b.bytes n = NUL ∧
      ((∀ i, i < n → m i ≠ NUL) → strlen b.bytes = some n) ∧
      (∀ k, k < n → m k = NUL → (∀ i, i < k → m i ≠ NUL) → strlen b.bytes = some k) := by
  obtain ⟨b, hb, hsize, hcopy, hz⟩ := strmemdup_result fresh m n hn
  refine ⟨b, hb, hsize, hcopy, hz, ?_, ?_⟩
  · intro hnone
    apply strlen_first b.bytes n hn hz
    intro j hj
    rw [hcopy j hj]
    exact hnone j hj
  · intro k hk hzk hfirst
    apply strlen_first b.bytes k (by omega)
    · rw [hcopy k hk]
      exact hzk
    · intro j hj
      rw [hcopy j (by omega)]
      exact hfirst j hj

/-- C13, at concrete inputs: the three bytes `abc` give the four bytes `abc`
and NUL, of length 3. -/
theorem C13_strmemdup_witness :
    3 < SIZE_MAX ∧
    (∃ b, wget_strmemdup sampleFresh (some (memOfString "abc")) 3 = some b ∧
      b.size = 3 + 1 ∧
      (∀ i, i < 3 → b.bytes i = memOfString "abc" i) ∧ b.bytes 3 = NUL ∧
      ((∀ i, i < 3 → memOfString "abc" i ≠ NUL) → strlen b.bytes = some 3) ∧
      (∀ k, k < 3 → memOfString "abc" k = NUL →
        (∀ i, i < k → memOfString "abc" i ≠ NUL) → strlen b.bytes = some k)) ∧
    (wget_strmemdup sampleFresh (some (memOfString "abc")) 3).map
      (fun b => (b.size, b.bytes.firstBytes 4, strlen b.bytes))
      = some (4, "abc".toList ++ [NUL], some 3) :=
  ⟨by decide,
   C13_strmemdup_makes_string sampleFresh (memOfString "abc") 3 (by decide),
   by decide⟩

/-- After one setter call, on any logger, the entries are consistent. -/
theorem consistent_after_setter (c : SetterCall) (l : wget_logger_t) :
    ∃ l', c.apply (some l) = some l' ∧ l'.consistent = true := by
  cases c with
  | set_func v => cases v <;> exact ⟨_, rfl, rfl⟩
  | set_stream v => cases v <;> exact ⟨_, rfl, rfl⟩
  | set_file v => cases v <;> exact ⟨_, rfl, rfl⟩

/-- Every logger state reached from the empty logger by setter calls is
consistent. -/
theorem reachable_consistent (cs : List SetterCall) :
    ∃ l, applySetters cs (some emptyLogger) = some l ∧ l.consistent = true := by
  induction cs using List.reverseRecOn with
  | nil => exact ⟨emptyLogger, rfl, rfl⟩
  | append_singleton cs c _ =>
    obtain ⟨l1, h1⟩ := applySetters_some cs emptyLogger
    obtain ⟨l2, h2, hc⟩ := consistent_after_setter c l1
    exact ⟨l2, by rw [applySetters_append_singleton, h1, h2], hc⟩

/-- What consistency says, case by case. -/
theorem consistent_cases (l : wget_logger_t) (h : l.consistent = true) :
    (l.vprintf = none ∧ l.write = none) ∨
    (l.vprintf = some VprintfFn.func ∧ l.write = some WriteFn.func ∧ ∃ f, l.func = some f) ∨
    (l.vprintf = some VprintfFn.file ∧ l.write = some WriteFn.file ∧ ∃ fp, l.fp = some fp) ∨
    (l.vprintf = some VprintfFn.fname ∧ l.write = some WriteFn.fname ∧
      ∃ p, l.fname = some p) := by
  obtain ⟨func, fp, fname, vp, wr⟩ := l
  cases vp with
  | none => cases wr <;> simp_all [wget_logger_t.consistent]
  | some v =>
    cases wr with
    | none => cases v <;> simp [wget_logger_t.consistent] at h
    | some x =>
      cases v <;> cases x <;>
        simp_all [wget_logger_t.consistent, Option.isSome_iff_exists]

/-- C14, as stated, fails: after `wget_logger_set_func` with callback 7 and
then `wget_logger_set_stream` with stream 1 on the empty logger, the stream
backend is the active one and the callback slot still holds callback 7. -/
theorem C14_stale_slot_counterexample :
    (applySetters
        [SetterCall.set_func (some 7), SetterCall.set_stream (some (FILE.user 1))]
        (some emptyLogger)).map
      (fun l => (l.vprintf, l.write, l.func, l.fp))
      = some (some VprintfFn.file, some WriteFn.file, some 7, some (FILE.user 1)) := by
  decide

/-- C14, amended: in every logger state reached from the empty logger by
setter calls, the slot of the active backend is non-null (callback slot in
state Callback, stream slot in state Stream, file-path slot in state
FilePath); and a setter does not clear the slots of the other two backends,
which keep the values they had. -/
theorem C14_active_slot_is_set (cs : List SetterCall) (l0 : wget_logger_t)
    (func : Option Func) (fp : Option FILE) (fname : Option String) :
    (∃ l, applySetters cs (some emptyLogger) = some l ∧
      (l.vprintf = some VprintfFn.func → l.func.isSome = true) ∧
      (l.vprintf = some VprintfFn.file → l.fp.isSome = true) ∧
      (l.vprintf = some VprintfFn.fname → l.fname.isSome = true)) ∧
    ((wget_logger_set_func (some l0) func).map (fun l => (l.fp, l.fname))
        = some (l0.fp, l0.fname) ∧
     (wget_logger_set_stream (some l0) fp).map (fun l => (l.func, l.fname))
        = some (l0.func, l0.fname) ∧
     (wget_logger_set_file (some l0) fname).map (fun l => (l.func, l.fp))
        = some (l0.func, l0.fp)) := by
  refine ⟨?_, rfl, rfl, rfl⟩
  obtain ⟨l, hl, hc⟩ := reachable_consistent cs
  refine ⟨l, hl, ?_, ?_, ?_⟩
  · intro hv
    rcases consistent_cases l hc with h | h | h | h
    · simp [h.1] at hv
    · obtain ⟨_, _, f, hf⟩ := h
      simp [hf]
    · simp [h.1] at hv
    · simp [h.1] at hv
  · intro hv
    rcases consistent_cases l hc with h | h | h | h
    · simp [h.1] at hv
    · simp [h.1] at hv
    · obtain ⟨_, _, f, hf⟩ := h
      simp [hf]
    · simp [h.1] at hv
  · intro hv
    rcases consistent_cases l hc with h | h | h | h
    · simp [h.1] at hv
    · simp [h.1] at hv
    · simp [h.1] at hv
    · obtain ⟨_, _, f, hf⟩ := h
      simp [hf]

/-- C14, amended, at a concrete input: callback 7, then stream 1. -/
theorem C14_active_slot_witness :
    ∃ l, applySetters
        [SetterCall.set_func (some 7), SetterCall.set_stream (some (FILE.user 1))]
        (some emptyLogger) = some l ∧
      (l.vprintf = some VprintfFn.func → l.func.isSome = true) ∧
      (l.vprintf = some VprintfFn.file → l.fp.isSome = true) ∧
      (l.vprintf = some VprintfFn.fname → l.fname.isSome = true) :=
  (C14_active_slot_is_set
    [SetterCall.set_func (some 7), SetterCall.set_stream (some (FILE.user 1))]
    emptyLogger none none none).1

/-- C15: in every logger state reached from the empty logger by setter calls,
the `write` entry is null if and only if the `vprintf` entry is null; when
both are non-null they belong to the same backend; and
`wget_logger_is_active` is true exactly when the `write` entry is non-null. -/
theorem C15_entries_agree (cs : List SetterCall) :
    ∃ l, applySetters cs (some emptyLogger) = some l ∧
      (l.write = none ↔ l.vprintf = none) ∧
      (∀ v wr, l.vprintf = some v → l.write = some wr → sameBackend v wr = true) ∧
      wget_logger_is_active (some l) = some l.write.isSome := by
  obtain ⟨l, hl, hc⟩ := reachable_consistent cs
  refine ⟨l, hl, ?_, ?_, ?_⟩
  · rcases consistent_cases l hc with h | h | h | h <;> simp [h.1, h.2]
  · intro v wr hv hw
    rcases consistent_cases l hc with h | h | h | h
    · simp [h.1] at hv
    · obtain ⟨h1, h2, _⟩ := h
      rw [h1] at hv
      rw [h2] at hw
      cases hv
      cases hw
      rfl
    · obtain ⟨h1, h2, _⟩ := h
      rw [h1] at hv
      rw [h2] at hw
      cases hv
      cases hw
      rfl
    · obtain ⟨h1, h2, _⟩ := h
      rw [h1] at hv
      rw [h2] at hw
      cases hv
      cases hw
      rfl
  · rcases consistent_cases l hc with h | h | h | h <;>
      simp [wget_logger_is_active, h.1, h.2]

/-- C15, at a concrete input: callback 7, then stream 1, then a null path. -/
theorem C15_entries_agree_witness :
    ∃ l, applySetters
        [SetterCall.set_func (some 7), SetterCall.set_stream (some (FILE.user 1)),
          SetterCall.set_file none]
        (some emptyLogger) = some l ∧
      (l.write = none ↔ l.vprintf = none) ∧
      (∀ v wr, l.vprintf = some v → l.write = some wr → sameBackend v wr = true) ∧
      wget_logger_is_active (some l) = some l.write.isSome :=
  C15_entries_agree
    [SetterCall.set_func (some 7), SetterCall.set_stream (some (FILE.user 1)),
      SetterCall.set_file none]

/-- C16: for each of the three backends, the call of the `vprintf` entry with
a format and arguments whose rendering is `r` has the same effect on the
sinks (callback invocations, stream contents, file contents, streams left
open) as the call of the `write` entry with the bytes `r` and their length;
both calls return. For the file-path backend this holds whether the path can
be opened or not. -/
theorem C16_formatted_is_write_of_rendering (env : Env) (l : wget_logger_t) (fmt : String)
    (args : List Arg) (w : World) :
    (∀ f, l.vprintf = some VprintfFn.func → l.write = some WriteFn.func →
      l.func = some f →
      ∃ w1 w2, call_vprintf env (some l) fmt args w = some w1 ∧
        call_write env (some l) (env.render fmt args) (env.render fmt args).length w
          = some w2 ∧
        w1.output = w2.output ∧ w1.openStreams = w2.openStreams) ∧
    (∀ fp, l.vprintf = some VprintfFn.file → l.write = some WriteFn.file →
      l.fp = some fp →
      ∃ w1 w2, call_vprintf env (some l) fmt args w = some w1 ∧
        call_write env (some l) (env.render fmt args) (env.render fmt args).length w
          = some w2 ∧
        w1.output = w2.output ∧ w1.openStreams = w2.openStreams) ∧
    (∀ p, l.vprintf = some VprintfFn.fname → l.write = some WriteFn.fname →
      l.fname = some p →
      ∃ w1 w2, call_vprintf env (some l) fmt args w = some w1 ∧
        call_write env (some l) (env.render fmt args) (env.render fmt args).length w
          = some w2 ∧
        w1.output = w2.output ∧ w1.openStreams = w2.openStreams) := by
  refine ⟨?_, ?_, ?_⟩
  · intro f hv hw hf
    simp only [call_vprintf, call_write, hv, hw, VprintfFn.call, WriteFn.call,
      _logger_vprintf_func, _logger_write_func, hf, wget_buffer_vprintf, wget_buffer_init]
    split <;> exact ⟨_, _, rfl, rfl, rfl, rfl⟩
  · intro fp hv hw hf
    simp only [call_vprintf, call_write, hv, hw, VprintfFn.call, WriteFn.call,
      _logger_vprintf_file, _logger_vfprintf, _logger_write_file, hf, wget_buffer_vprintf,
      wget_buffer_init]
    split <;> cases fp <;> exact ⟨_, _, rfl, rfl, rfl, rfl⟩
  · intro p hv hw hf
    simp only [call_vprintf, call_write, hv, hw, VprintfFn.call, WriteFn.call,
      _logger_vprintf_fname, _logger_vfprintf, _logger_write_fname, hf, wget_buffer_vprintf,
      wget_buffer_init, fopen]
    cases hp : w.files p with
    | none => exact ⟨_, _, rfl, rfl, rfl, rfl⟩
    | some c =>
      simp only []
      split <;> exact ⟨_, _, rfl, rfl, rfl, rfl⟩

/-- C16, at concrete inputs: callback 7, the caller stream 1, the path
`wget.log` and the path `/nonexistent/wget.log`, with the format `%d-%s`. -/
theorem C16_formatted_is_write_witness :
    (∃ w1 w2, call_vprintf clobberEnv (some funcLogger) "%d-%s"
        [Arg.int 42, Arg.str "ok"] sampleWorld = some w1 ∧
      call_write clobberEnv (some funcLogger)
        (clobberEnv.render "%d-%s" [Arg.int 42, Arg.str "ok"])
        (clobberEnv.render "%d-%s" [Arg.int 42, Arg.str "ok"]).length sampleWorld
        = some w2 ∧
      w1.output = w2.output ∧ w1.openStreams = w2.openStreams) ∧
    (∃ w1 w2, call_vprintf clobberEnv (some streamLogger) "%d-%s"
        [Arg.int 42, Arg.str "ok"] sampleWorld = some w1 ∧
      call_write clobberEnv (some streamLogger)
        (clobberEnv.render "%d-%s" [Arg.int 42, Arg.str "ok"])
        (clobberEnv.render "%d-%s" [Arg.int 42, Arg.str "ok"]).length sampleWorld
        = some w2 ∧
      w1.output = w2.output ∧ w1.openStreams = w2.openStreams) ∧
    (∃ w1 w2, call_vprintf clobberEnv (some fileLogger) "%d-%s"
        [Arg.int 42, Arg.str "ok"] sampleWorld = some w1 ∧
      call_write clobberEnv (some fileLogger)
        (clobberEnv.render "%d-%s" [Arg.int 42, Arg.str "ok"])
        (clobberEnv.render "%d-%s" [Arg.int 42, Arg.str "ok"]).length sampleWorld
        = some w2 ∧
      w1.output = w2.output ∧ w1.openStreams = w2.openStreams) ∧
    (∃ w1 w2, call_vprintf clobberEnv (some badFileLogger) "%d-%s"
        [Arg.int 42, Arg.str "ok"] sampleWorld = some w1 ∧
      call_write clobberEnv (some badFileLogger)
        (clobberEnv.render "%d-%s" [Arg.int 42, Arg.str "ok"])
        (clobberEnv.render "%d-%s" [Arg.int 42, Arg.str "ok"]).length sampleWorld
        = some w2 ∧
      w1.output = w2.output ∧ w1.openStreams = w2.openStreams) :=
  ⟨(C16_formatted_is_write_of_rendering clobberEnv funcLogger "%d-%s"
      [Arg.int 42, Arg.str "ok"] sampleWorld).1 7 rfl rfl rfl,
   (C16_formatted_is_write_of_rendering clobberEnv streamLogger "%d-%s"
      [Arg.int 42, Arg.str "ok"] sampleWorld).2.1 (FILE.user 1) rfl rfl rfl,
   (C16_formatted_is_write_of_rendering clobberEnv fileLogger "%d-%s"
      [Arg.int 42, Arg.str "ok"] sampleWorld).2.2 "wget.log" rfl rfl rfl,
   (C16_formatted_is_write_of_rendering clobberEnv badFileLogger "%d-%s"
      [Arg.int 42, Arg.str "ok"] sampleWorld).2.2 "/nonexistent/wget.log" rfl rfl rfl⟩

/-- On a consistent logger with a non-null `write` entry, the call through the
`write` entry returns. -/
theorem call_write_returns (env : Env) (l : wget_logger_t) (buf : List Byte) (len : Nat)
    (w : World) (hc : l.consistent = true) (ha : l.vprintf.isSome = true) :
    ∃ w', call_write env (some l) buf len w = some w' := by
  rcases consistent_cases l hc with h | h | h | h
  · simp [h.1] at ha
  · obtain ⟨_, hw, f, hf⟩ := h
    obtain ⟨w', hw', _⟩ := write_func_effect env l f buf len w hw hf
    exact ⟨w', hw'⟩
  · obtain ⟨_, hw, fp, hf⟩ := h
    obtain ⟨w', hw', _⟩ := write_file_effect env l fp buf len w hw hf
    exact ⟨w', hw'⟩
  · obtain ⟨_, hw, p, hf⟩ := h
    obtain ⟨w', hw', _⟩ := write_fname_effect env l p buf len w hw hf
    exact ⟨w', hw'⟩

/-- On a consistent logger with a non-null `vprintf` entry, the call through
the `vprintf` entry returns. -/
theorem call_vprintf_returns (env : Env) (l : wget_logger_t) (fmt : String)
    (args : List Arg) (w : World) (hc : l.consistent = true)
    (ha : l.vprintf.isSome = true) :
    ∃ w', call_vprintf env (some l) fmt args w = some w' := by
  rcases consistent_cases l hc with h | h | h | h
  · simp [h.1] at ha
  · obtain ⟨hv, _, f, hf⟩ := h
    simp only [call_vprintf, hv, VprintfFn.call]
    obtain ⟨w', hw', _⟩ := vprintf_func_errno env l f fmt args w hf
    exact ⟨w', hw'⟩
  · obtain ⟨hv, _, fp, hf⟩ := h
    simp only [call_vprintf, hv, VprintfFn.call, _logger_vprintf_file, hf]
    obtain ⟨w', hw', _⟩ := vfprintf_errno env fp fmt args w
    exact ⟨w', hw'⟩
  · obtain ⟨hv, _, p, hf⟩ := h
    simp only [call_vprintf, hv, VprintfFn.call, _logger_vprintf_fname, hf, fopen]
    cases hp : w.files p with
    | none => exact ⟨_, rfl⟩
    | some c =>
      simp only []
      obtain ⟨w', hw', _⟩ := vfprintf_errno env (FILE.opened p) fmt args
        { w with
          openStreams := FILE.opened p :: w.openStreams
          errno := env.errnoAfter ExtCall.fopen w.errno }
      rw [hw']
      exact ⟨_, rfl⟩

/-- The formatted stream write on the whole state is the one on the
surroundings, with the logger object passed on. -/
theorem Machine.vfprintf_eq (env : Env) (fp : Option FILE) (fmt : String) (args : List Arg)
    (l : wget_logger_t) (w : World) :
    Machine._logger_vfprintf env fp fmt args { logger := l, world := w }
      = (Wget2._logger_vfprintf env fp fmt args w).map
          (fun w' => { logger := l, world := w' }) := by
  cases fp <;> rfl

/-- Each `vprintf` entry on the whole state yields the surroundings its
embedding on the surroundings yields, and the logger object it was given. -/
theorem vprintf_run_eq (fn : VprintfFn) (env : Env) (fmt : String) (args : List Arg)
    (l : wget_logger_t) (w : World) :
    fn.run env fmt args { logger := l, world := w }
      = (fn.call env l fmt args w).map (fun w' => { logger := l, world := w' }) := by
  cases fn with
  | func =>
    simp only [VprintfFn.run, VprintfFn.call, Machine._logger_vprintf_func,
      Wget2._logger_vprintf_func]
    cases l.func <;> rfl
  | file =>
    simp only [VprintfFn.run, VprintfFn.call, Machine._logger_vprintf_file,
      Wget2._logger_vprintf_file]
    exact Machine.vfprintf_eq env l.fp fmt args l w
  | fname =>
    simp only [VprintfFn.run, VprintfFn.call, Machine._logger_vprintf_fname,
      Wget2._logger_vprintf_fname]
    cases l.fname with
    | none => rfl
    | some p =>
      simp only [fopen]
      cases w.files p with
      | none => rfl
      | some c => rfl

/-- Each `write` entry on the whole state yields the surroundings its
embedding on the surroundings yields, and the logger object it was given. -/
theorem write_run_eq (fn : WriteFn) (env : Env) (buf : List Byte) (len : Nat)
    (l : wget_logger_t) (w : World) :
    fn.run env buf len { logger := l, world := w }
      = (fn.call env l buf len w).map (fun w' => { logger := l, world := w' }) := by
  cases fn with
  | func =>
    simp only [WriteFn.run, WriteFn.call, Machine._logger_write_func,
      Wget2._logger_write_func]
    cases l.func <;> rfl
  | file =>
    simp only [WriteFn.run, WriteFn.call, Machine._logger_write_file,
      Wget2._logger_write_file]
    cases l.fp <;> rfl
  | fname =>
    simp only [WriteFn.run, WriteFn.call, Machine._logger_write_fname,
      Wget2._logger_write_fname]
    cases l.fname with
    | none => rfl
    | some p =>
      simp only [fopen]
      cases w.files p with
      | none => rfl
      | some c => rfl

/-- A `vprintf` entry that returns leaves the logger object as it was. -/
theorem vprintf_run_logger (fn : VprintfFn) (env : Env) (fmt : String) (args : List Arg)
    (st st' : LoggerState) (h : fn.run env fmt args st = some st') :
    st'.logger = st.logger := by
  obtain ⟨l, w⟩ := st
  rw [vprintf_run_eq] at h
  cases hc : fn.call env l fmt args w with
  | none => simp [hc] at h
  | some w' =>
    simp only [hc, Option.map_some', Option.some.injEq] at h
    rw [← h]

/-- A `write` entry that returns leaves the logger object as it was. -/
theorem write_run_logger (fn : WriteFn) (env : Env) (buf : List Byte) (len : Nat)
    (st st' : LoggerState) (h : fn.run env buf len st = some st') :
    st'.logger = st.logger := by
  obtain ⟨l, w⟩ := st
  rw [write_run_eq] at h
  cases hc : fn.call env l buf len w with
  | none => simp [hc] at h
  | some w' =>
    simp only [hc, Option.map_some', Option.some.injEq] at h
    rw [← h]

/-- One output call that returns leaves the logger object as it was. -/
theorem OutputCall.run_logger (env : Env) (c : OutputCall) (st st' : LoggerState)
    (h : c.run env st = some st') : st'.logger = st.logger := by
  cases c with
  | write buf len =>
    simp only [OutputCall.run, Machine.call_write] at h
    cases hw : st.logger.write with
    | none => simp [hw] at h
    | some fn =>
      simp only [hw] at h
      exact write_run_logger fn env buf len st st' h
  | vprintf fmt args =>
    simp only [OutputCall.run, Machine.call_vprintf] at h
    cases hv : st.logger.vprintf with
    | none => simp [hv] at h
    | some fn =>
      simp only [hv] at h
      exact vprintf_run_logger fn env fmt args st st' h

/-- A sequence of output calls that returns leaves the logger object as it
was. -/
theorem runOutputs_logger (env : Env) (ops : List OutputCall) (st st' : LoggerState)
    (h : runOutputs env ops st = some st') : st'.logger = st.logger := by
  induction ops generalizing st with
  | nil =>
    simp only [runOutputs] at h
    cases h
    rfl
  | cons c cs ih =>
    simp only [runOutputs] at h
    cases hc : c.run env st with
    | none => simp [hc] at h
    | some st1 =>
      rw [hc] at h
      rw [ih st1 h]
      exact OutputCall.run_logger env c st st1 hc

/-- On a consistent logger with an active backend one output call returns. -/
theorem OutputCall.run_returns (env : Env) (c : OutputCall) (st : LoggerState)
    (hc : st.logger.consistent = true) (ha : st.logger.vprintf.isSome = true) :
    ∃ st1, c.run env st = some st1 := by
  obtain ⟨l, w⟩ := st
  cases c with
  | write buf len =>
    obtain ⟨w', hw'⟩ := call_write_returns env l buf len w hc ha
    simp only [Wget2.call_write] at hw'
    simp only [OutputCall.run, Machine.call_write]
    cases hwr : l.write with
    | none => simp [hwr] at hw'
    | some fn =>
      simp only [hwr] at hw'
      simp only [write_run_eq, hw']
      exact ⟨_, rfl⟩
  | vprintf fmt args =>
    obtain ⟨w', hw'⟩ := call_vprintf_returns env l fmt args w hc ha
    simp only [Wget2.call_vprintf] at hw'
    simp only [OutputCall.run, Machine.call_vprintf]
    cases hv : l.vprintf with
    | none => simp [hv] at hw'
    | some fn =>
      simp only [hv] at hw'
      simp only [vprintf_run_eq, hw']
      exact ⟨_, rfl⟩

/-- On a consistent logger with an active backend every sequence of output
calls returns. -/
theorem runOutputs_returns (env : Env) (ops : List OutputCall) (st : LoggerState)
    (hc : st.logger.consistent = true) (ha : st.logger.vprintf.isSome = true) :
    ∃ st', runOutputs env ops st = some st' := by
  induction ops generalizing st with
  | nil => exact ⟨st, rfl⟩
  | cons c cs ih =>
    obtain ⟨st1, h1⟩ := OutputCall.run_returns env c st hc ha
    have hl : st1.logger = st.logger := OutputCall.run_logger env c st st1 h1
    obtain ⟨st2, h2⟩ := ih st1 (by rw [hl]; exact hc) (by rw [hl]; exact ha)
    exact ⟨st2, by simp only [runOutputs, h1, h2]⟩

/-- C17: the dispatch entries never change the logger. Each of the three
`write` entries and each of the three `vprintf` entries, run on a state that
holds the logger object and the surroundings, returns (when it returns) a
state whose logger object has the callback, stream, file path, `write` and
`vprintf` members it had before, for every logger and every input; so has
every sequence of calls through the stored entries. In every logger state
reached from the empty logger by setter calls in which a backend is active,
every such sequence returns, with the same logger, hence the same active
backend and the same result of `wget_logger_is_active`. -/
theorem C17_output_calls_keep_logger (env : Env) (cs : List SetterCall)
    (ops : List OutputCall) (w : World) :
    (∀ (fn : WriteFn) (buf : List Byte) (len : Nat) (st st' : LoggerState),
      fn.run env buf len st = some st' →
      st'.logger.func = st.logger.func ∧ st'.logger.fp = st.logger.fp ∧
      st'.logger.fname = st.logger.fname ∧ st'.logger.write = st.logger.write ∧
      st'.logger.vprintf = st.logger.vprintf) ∧
    (∀ (fn : VprintfFn) (fmt : String) (args : List Arg) (st st' : LoggerState),
      fn.run env fmt args st = some st' →
      st'.logger.func = st.logger.func ∧ st'.logger.fp = st.logger.fp ∧
      st'.logger.fname = st.logger.fname ∧ st'.logger.write = st.logger.write ∧
      st'.logger.vprintf = st.logger.vprintf) ∧
    (∀ st st', runOutputs env ops st = some st' →
      st'.logger.func = st.logger.func ∧ st'.logger.fp = st.logger.fp ∧
      st'.logger.fname = st.logger.fname ∧ st'.logger.write = st.logger.write ∧
      st'.logger.vprintf = st.logger.vprintf) ∧
    (∀ l, applySetters cs (some emptyLogger) = some l → l.vprintf.isSome = true →
      ∃ st', runOutputs env ops { logger := l, world := w } = some st' ∧
        st'.logger = l ∧
        wget_logger_is_active (some st'.logger) = wget_logger_is_active (some l)) := by
  refine ⟨?_, ?_, ?_, ?_⟩
  · intro fn buf len st st' h
    rw [write_run_logger fn env buf len st st' h]
    exact ⟨rfl, rfl, rfl, rfl, rfl⟩
  · intro fn fmt args st st' h
    rw [vprintf_run_logger fn env fmt args st st' h]
    exact ⟨rfl, rfl, rfl, rfl, rfl⟩
  · intro st st' h
    rw [runOutputs_logger env ops st st' h]
    exact ⟨rfl, rfl, rfl, rfl, rfl⟩
  · intro l hl ha
    obtain ⟨l1, hl1, hc⟩ := reachable_consistent cs
    rw [hl] at hl1
    cases hl1
    obtain ⟨st', h⟩ := runOutputs_returns env ops { logger := l, world := w } hc ha
    have hlog := runOutputs_logger env ops _ st' h
    exact ⟨st', h, hlog, by rw [hlog]⟩

/-- C17, at concrete inputs: after `wget_logger_set_func` with callback 7, a
`write` call followed by a `vprintf` call, both through the stored entries. -/
theorem C17_output_calls_witness :
    (applySetters [SetterCall.set_func (some 7)] (some emptyLogger) = some funcLogger ∧
      funcLogger.vprintf.isSome = true) ∧
    ∃ st', runOutputs clobberEnv
        [OutputCall.write "hi".toList 2, OutputCall.vprintf "%d-%s" [Arg.int 42, Arg.str "ok"]]
        { logger := funcLogger, world := sampleWorld } = some st' ∧
      st'.logger = funcLogger ∧
      wget_logger_is_active (some st'.logger) = wget_logger_is_active (some funcLogger) :=
  ⟨⟨by decide, rfl⟩,
   (C17_output_calls_keep_logger clobberEnv [SetterCall.set_func (some 7)]
      [OutputCall.write "hi".toList 2, OutputCall.vprintf "%d-%s" [Arg.int 42, Arg.str "ok"]]
      sampleWorld).2.2.2 funcLogger (by decide) rfl⟩

/-- Stores leave alone every offset they do not name. -/
theorem applyStores_frame (stores : List Store) (s : Mem) (i : Nat)
    (h : ∀ st ∈ stores, st.1 ≠ i) : applyStores stores s i = s i := by
  induction stores generalizing s with
  | nil => rfl
  | cons st rest ih =>
    have hrest : ∀ x ∈ rest, x.1 ≠ i := fun x hx => h x (List.mem_cons_of_mem st hx)
    have hst : i ≠ st.1 := fun e => h st (List.mem_cons_self st rest) e.symm
    show applyStores rest (Function.update s st.1 st.2) i = s i
    rw [ih _ hrest, Function.update_noteq hst]

/-- Every store of `wget_strmemcpy` on a non-null destination is at an offset
of at most `min (n, ssize - 1)`. -/
theorem strmemcpy_stores_bound (ssize : Nat) (m : Option Mem) (n : Nat) :
    ∀ st ∈ wget_strmemcpy_stores ssize m n, st.1 ≤ min n (ssize - 1) ∧ st.1 < ssize := by
  intro st hst
  unfold wget_strmemcpy_stores at hst
  by_cases h0 : ssize = 0
  · simp [h0] at hst
  · simp only [h0, if_false] at hst
    by_cases hn : n > 0
    · simp only [hn, if_true] at hst
      cases m with
      | none =>
        simp at hst
        subst hst
        simp
        omega
      | some src =>
        simp only [List.mem_append, List.mem_singleton, memmove_stores, List.mem_map,
          List.mem_range] at hst
        by_cases hge : n ≥ ssize
        · simp only [hge, if_true] at hst
          rcases hst with ⟨j, hj, rfl⟩ | rfl
          · simp only
            omega
          · simp only
            omega
        · simp only [hge, if_false] at hst
          rcases hst with ⟨j, hj, rfl⟩ | rfl
          · simp only
            omega
          · simp only
            omega
    · simp only [hn, if_false, List.mem_singleton] at hst
      subst hst
      simp only
      omega

/-- C18: `wget_strmemcpy` never writes outside the destination. For every
`s`, `ssize`, `m` and `n`, every offset it stores to is at most
`min (n, ssize - 1)` and less than `ssize`; every destination byte at an
offset greater than `min (n, ssize - 1)` keeps its value; and when `s` is null
or `ssize` is 0 it performs no store at all. -/
theorem C18_strmemcpy_stays_inside (s : Option Mem) (ssize : Nat) (m : Option Mem)
    (n : Nat) :
    (∀ st ∈ wget_strmemcpy_writes s ssize m n,
      st.1 ≤ min n (ssize - 1) ∧ st.1 < ssize) ∧
    (∀ dst, s = some dst →
      ∃ dst', wget_strmemcpy s ssize m n = some dst' ∧
        dst' = applyStores (wget_strmemcpy_writes s ssize m n) dst ∧
        ∀ i, min n (ssize - 1) < i → dst' i = dst i) ∧
    (s = none →
      wget_strmemcpy_writes s ssize m n = [] ∧ wget_strmemcpy s ssize m n = none) ∧
    (ssize = 0 →
      wget_strmemcpy_writes s ssize m n = [] ∧ wget_strmemcpy s ssize m n = s) := by
  refine ⟨?_, ?_, ?_, ?_⟩
  · cases s with
    | none => simp [wget_strmemcpy_writes]
    | some dst => exact strmemcpy_stores_bound ssize m n
  · intro dst hs
    subst hs
    refine ⟨_, rfl, rfl, ?_⟩
    intro i hi
    apply applyStores_frame
    intro st hst
    have := (strmemcpy_stores_bound ssize m n st hst).1
    omega
  · intro hs
    subst hs
    exact ⟨rfl, rfl⟩
  · intro h0
    subst h0
    cases s with
    | none => exact ⟨rfl, rfl⟩
    | some dst => exact ⟨by simp [wget_strmemcpy_writes, wget_strmemcpy_stores],
        by simp [wget_strmemcpy, wget_strmemcpy_stores, applyStores]⟩

/-- C18, at concrete inputs: `ssize = 5` and the 11 bytes of `hello world` on
a destination filled with `x`; the stores are at the offsets 0 to 4 and the
bytes from offset 5 on are kept. -/
theorem C18_strmemcpy_inside_witness :
    (∃ dst', wget_strmemcpy (some (fun _ => 'x')) 5 (some (memOfString "hello world")) 11
        = some dst' ∧
      dst' = applyStores
        (wget_strmemcpy_writes (some (fun _ => 'x')) 5 (some (memOfString "hello world")) 11)
        (fun _ => 'x') ∧
      ∀ i, min 11 (5 - 1) < i → dst' i = (fun _ => 'x') i) ∧
    (wget_strmemcpy_writes (some (fun _ => 'x')) 5 (some (memOfString "hello world")) 11).map
        (fun st => st.1) = [0, 1, 2, 3, 4] ∧
    (wget_strmemcpy (some (fun _ => 'x')) 5 (some (memOfString "hello world")) 11).map
        (fun dst' => dst'.firstBytes 7) = some ("hell".toList ++ [NUL, 'x', 'x']) :=
  ⟨(C18_strmemcpy_stays_inside (some (fun _ => 'x')) 5 (some (memOfString "hello world"))
      11).2.1 (fun _ => 'x') rfl,
   by decide, by decide⟩

/-- C19: for a non-null destination with `ssize >= 1`, when `n = 0` or the
source is null (also with `n > 0`), `wget_strmemcpy` yields the empty string:
its only store is NUL at offset 0, so `s[0] = 0` and every other byte keeps
its value, and no byte of the source enters the result. -/
theorem C19_strmemcpy_empty_string (s : Mem) (ssize : Nat) (m : Option Mem) (n : Nat)
    (hsize : 1 ≤ ssize) (hcase : n = 0 ∨ m = none) :
    ∃ s', wget_strmemcpy (some s) ssize m n = some s' ∧
      s' 0 = NUL ∧ (∀ i, i ≠ 0 → s' i = s i) ∧
      wget_strmemcpy_writes (some s) ssize m n = [(0, NUL)] := by
  have h0 : ssize ≠ 0 := by omega
  have hstores : wget_strmemcpy_stores ssize m n = [(0, NUL)] := by
    unfold wget_strmemcpy_stores
    rcases hcase with hn | hm
    · subst hn
      simp [h0]
    · subst hm
      by_cases hn : n > 0
      · simp [h0, hn]
      · have hz : n = 0 := by omega
        subst hz
        simp [h0]
  refine ⟨Function.update s 0 NUL, ?_, ?_, ?_, ?_⟩
  · simp [wget_strmemcpy, hstores, applyStores]
  · simp
  · intro i hi
    exact Function.update_noteq hi NUL s
  · simp [wget_strmemcpy_writes, hstores]

/-- C19, at concrete inputs: a null source with `n = 3`, and the source
`hello` with `n = 0`, on a destination filled with `x`. -/
theorem C19_strmemcpy_empty_witness :
    (1 ≤ 5 ∧ ((3 : Nat) = 0 ∨ (none : Option Mem) = none)) ∧
    (∃ s', wget_strmemcpy (some (fun _ => 'x')) 5 none 3 = some s' ∧
      s' 0 = NUL ∧ (∀ i, i ≠ 0 → s' i = (fun _ => 'x') i) ∧
      wget_strmemcpy_writes (some (fun _ => 'x')) 5 none 3 = [(0, NUL)]) ∧
    (1 ≤ 5 ∧ ((0 : Nat) = 0 ∨ some (memOfString "hello") = none)) ∧
    (∃ s', wget_strmemcpy (some (fun _ => 'x')) 5 (some (memOfString "hello")) 0 = some s' ∧
      s' 0 = NUL ∧ (∀ i, i ≠ 0 → s' i = (fun _ => 'x') i) ∧
      wget_strmemcpy_writes (some (fun _ => 'x')) 5 (some (memOfString "hello")) 0
        = [(0, NUL)]) :=
  ⟨⟨by decide, Or.inr rfl⟩,
   C19_strmemcpy_empty_string (fun _ => 'x') 5 none 3 (by decide) (Or.inr rfl),
   ⟨by decide, Or.inl rfl⟩,
   C19_strmemcpy_empty_string (fun _ => 'x') 5 (some (memOfString "hello")) 0 (by decide)
     (Or.inl rfl)⟩

/-- C20: on a null logger each of the three setters does nothing, whatever
its argument (the logger stays null; the setters touch nothing else), and
each of the three getters returns null. -/
theorem C20_null_logger_is_safe (func : Option Func) (fp : Option FILE)
    (fname : Option String) :
    wget_logger_set_func none func = none ∧
    wget_logger_set_stream none fp = none ∧
    wget_logger_set_file none fname = none ∧
    wget_logger_get_func none = none ∧
    wget_logger_get_stream none = none ∧
    wget_logger_get_file none = none :=
  ⟨rfl, rfl, rfl, rfl, rfl, rfl⟩

end Wget2

